import Mathlib

/-!
Verification development for the sheep_game repository.

The repository's core is a per-agent behaviour state machine
(`src/IGRA/Sheep.controller.js`, class `SheepController`) and a collision
pass (`src/IGRA/Physics.js`, class `Physics`).  This file gives a shallow
embedding of both over the rationals and proves properties of the embedding.

Modelling conventions:
* JavaScript numbers are modelled as `ℚ`.  `Math.sqrt`, `Math.sin`,
  `Math.cos`, `Math.atan2` and the trigonometric branch of `quat.slerp`
  are transcendental and have no exact rational counterpart; they are
  modelled by computable rational stand-ins (`sqrtQ`, `sinQ`, `cosQ`,
  `atan2Q`, `slerpQ`) documented at their definitions.  `sqrtQ` is exact
  on perfect squares and every concrete evaluation below only takes
  square roots of perfect squares, so those evaluations agree with the
  source exactly.
* Mutation of the entity transform and of the controller's fields is
  modelled by explicit state passing; `Math.random()` is modelled by an
  explicit stream of rationals consumed left to right.
* `engine/core/core.js` (the `Transform` component) and
  `engine/core/SceneUtils.js` (`getGlobalModelMatrix`) are files of this
  repository that are not present under `src/`; they are modelled from
  the spec where indicated.
-/

namespace SheepGame

/-- A 3-component vector, the model of a glMatrix `vec3`. -/
structure Vec3 where
  x : ℚ
  y : ℚ
  z : ℚ
  deriving DecidableEq

/-- A 2-component planar vector `[x, z]`, the model of the 2-element arrays
used by `SheepController` for directions and 2D bounds corners. -/
structure Vec2 where
  x : ℚ
  z : ℚ
  deriving DecidableEq

/-- A quaternion `(x, y, z, w)`, the model of a glMatrix `quat`. -/
structure Quat where
  x : ℚ
  y : ℚ
  z : ℚ
  w : ℚ
  deriving DecidableEq

/-- A planar rectangle `{min: [x,z], max: [x,z]}` such as
`SheepController.mapBounds` or the stored `senoBounds`. -/
structure Bounds2 where
  min : Vec2
  max : Vec2
  deriving DecidableEq

/-- Modelled: JavaScript `Math.sqrt`.  Exact on rationals that are squares
of rationals (in lowest terms, numerator and denominator perfect squares);
on other inputs it returns the rational obtained from the floor square
roots, a stand-in for the double-precision approximation the source
computes.  Every concrete evaluation in this file applies it to perfect
squares only, where it agrees with the source exactly.  Negative inputs
(which the source never produces: every use is on a sum of squares)
return 0. -/
def sqrtQ (q : ℚ) : ℚ :=
  if q ≤ 0 then 0
  else (Nat.sqrt q.num.toNat : ℚ) / (Nat.sqrt q.den : ℚ)

/-- Modelled: JavaScript `Math.sin` as used for sampling a direction from a
random angle.  `sinQ`/`cosQ` use the rational parametrisation of the unit
circle, so that sampled directions are exactly unit length, mirroring the
unit-length guarantee of real sine/cosine. -/
def sinQ (t : ℚ) : ℚ := 2 * t / (1 + t ^ 2)

/-- Modelled: JavaScript `Math.cos`; see `sinQ`. -/
def cosQ (t : ℚ) : ℚ := (1 - t ^ 2) / (1 + t ^ 2)

/-- Modelled: JavaScript `Math.PI` (its double value as a rational
literal). -/
def piQ : ℚ := 3141592653589793 / 1000000000000000

/-- Modelled: JavaScript `Math.atan2`.  Its value only feeds the rotation
slerp target, which no verified property depends on; any total rational
stand-in is adequate. -/
def atan2Q (a b : ℚ) : ℚ := a / (1 + b ^ 2)

/-- The identity quaternion produced by `quat.create()`. -/
def quatIdentity : Quat := ⟨0, 0, 0, 1⟩

/-- Model of glMatrix `quat.rotateY(out, a, rad)`: multiply `a` by the
rotation of `rad` about the Y axis (half-angle sine/cosine via the
`sinQ`/`cosQ` stand-ins). -/
def quatRotateY (a : Quat) (rad : ℚ) : Quat :=
  let b_y := sinQ (rad / 2)
  let b_w := cosQ (rad / 2)
  ⟨a.x * b_w + a.z * b_y,
   a.y * b_w + a.w * b_y,
   a.z * b_w - a.x * b_y,
   a.w * b_w - a.y * b_y⟩

/-- Modelled: glMatrix `quat.slerp(out, a, b, t)`.  Over `ℚ` only its
small-angle linear-interpolation branch is representable (the general
branch divides by a real sine); the sign flip for negative dot product is
kept.  No verified property depends on rotation values. -/
def slerpQ (a b : Quat) (t : ℚ) : Quat :=
  let dot := a.x * b.x + a.y * b.y + a.z * b.z + a.w * b.w
  let b := if dot < 0 then Quat.mk (-b.x) (-b.y) (-b.z) (-b.w) else b
  ⟨a.x + t * (b.x - a.x), a.y + t * (b.y - a.y),
   a.z + t * (b.z - a.z), a.w + t * (b.w - a.w)⟩

/-- glMatrix `vec3.distance`. -/
def vec3dist (a b : Vec3) : ℚ :=
  sqrtQ ((a.x - b.x) * (a.x - b.x) + (a.y - b.y) * (a.y - b.y) +
         (a.z - b.z) * (a.z - b.z))

/-- glMatrix `vec3.lerp`. -/
def vec3lerp (a b : Vec3) (t : ℚ) : Vec3 :=
  ⟨a.x + t * (b.x - a.x), a.y + t * (b.y - a.y), a.z + t * (b.z - a.z)⟩

/-- Modelled from the spec: the `Transform` component of
`engine/core/core.js`, a file of this repository not present under
`src/`.  Spec §3/§6: mutable 3D translation, mutable unit-quaternion
rotation, scale. -/
structure Transform where
  translation : Vec3
  rotation : Quat
  scale : Vec3
  deriving DecidableEq

/-- Draw one value from the explicit random stream (the model of one
`Math.random()` call); an exhausted stream yields 0. -/
def draw (rng : List ℚ) : ℚ × List ℚ := (rng.headD 0, rng.tail)

/-- The mutable fields and configuration of `SheepController`
(`src/IGRA/Sheep.controller.js` lines 6–87).  `fenceZone` and the unused
`isMoving`/`targetRotation` fields are omitted: the only code reading
them is the debug block at lines 162–180, whose body is commented out and
whose guard (`this.debugTimer >= this.debugInterval`, `NaN >= undefined`)
is always false, so they have no observable effect. -/
structure SheepState where
  moveSpeed : ℚ
  directionChangeInterval : ℚ
  mapBounds : Bounds2
  pauseChance : ℚ
  pauseDuration : ℚ
  bobHeight : ℚ
  bobSpeed : ℚ
  rotationSpeed : ℚ
  fleeRadius : ℚ
  safeRadius : ℚ
  fleeSpeedMultiplier : ℚ
  isFleeing : Bool
  fleeCooldown : ℚ
  fleeCooldownDuration : ℚ
  fleeDirection : Vec2
  fleeDirectionUpdateTimer : ℚ
  fleeDirectionUpdateInterval : ℚ
  lastFleePosition : Vec2
  fleeStuckCounter : ℕ
  fleeStuckThreshold : ℚ
  fleeForceEscapeTimer : ℚ
  isPanic : Bool
  panicTimer : ℚ
  panicDuration : ℚ
  panicSpeedMultiplier : ℚ
  panicDirectionChangeInterval : ℚ
  panicTimeSinceDirectionChange : ℚ
  currentDirection : Vec2
  timeSinceDirectionChange : ℚ
  isPaused : Bool
  pauseTimeRemaining : ℚ
  isLaunched : Bool
  launchVelocity : Vec3
  launchGravity : ℚ
  launchDuration : ℚ
  shouldEnterPanicAfterLanding : Bool
  walkTime : ℚ
  baseY : Option ℚ
  launchInvulnerable : Bool
  isOnSeno : Bool
  senoBounds : Option Bounds2
  deriving DecidableEq

namespace SheepController

/-- `SheepController.pickRandomDirection` (lines 88–121): at or past a map
edge pick the inward axis direction deterministically, otherwise sample a
uniform angle and take its sine/cosine.  The transform argument models
`this.entity.getComponentOfType(Transform)`. -/
def pickRandomDirection (st : SheepState) (tr? : Option Transform)
    (rng : List ℚ) : SheepState × List ℚ :=
  match tr? with
  | none => (st, rng)
  | some tr =>
    let x := tr.translation.x
    let z := tr.translation.z
    if x ≤ st.mapBounds.min.x then ({ st with currentDirection := ⟨1, 0⟩ }, rng)
    else if x ≥ st.mapBounds.max.x then ({ st with currentDirection := ⟨-1, 0⟩ }, rng)
    else if z ≤ st.mapBounds.min.z then ({ st with currentDirection := ⟨0, 1⟩ }, rng)
    else if z ≥ st.mapBounds.max.z then ({ st with currentDirection := ⟨0, -1⟩ }, rng)
    else
      let r := draw rng
      let angle := r.1 * piQ * 2
      ({ st with currentDirection := ⟨sinQ angle, cosQ angle⟩ }, r.2)

/-- `SheepController.launch(direction, speed)` (lines 124–149). -/
def launch (st : SheepState) (direction : Vec3) (speed : ℚ) : SheepState :=
  { st with
    isLaunched := true,
    launchVelocity := ⟨direction.x * speed, 3, direction.z * speed⟩,
    launchDuration := 0,
    isPaused := false,
    pauseTimeRemaining := 0,
    currentDirection := ⟨0, 0⟩,
    launchInvulnerable := true,
    timeSinceDirectionChange := 0,
    shouldEnterPanicAfterLanding := true }

/-- `SheepController.enterPanicMode` (lines 554–561). -/
def enterPanicMode (st : SheepState) (tr? : Option Transform)
    (rng : List ℚ) : SheepState × List ℚ :=
  pickRandomDirection
    { st with isPanic := true, panicTimer := st.panicDuration,
              panicTimeSinceDirectionChange := 0, isPaused := false,
              isFleeing := false } tr? rng

/-- `SheepController.applyBoundaryConstraints(transform)` (lines 563–582):
clamp X and Z into the map bounds and flip the offending component of
`currentDirection` inward. -/
def applyBoundaryConstraints (st : SheepState) (tr : Transform) :
    SheepState × Transform :=
  let x := tr.translation.x
  let z := tr.translation.z
  let p1 :=
    if x < st.mapBounds.min.x then
      ({ st with currentDirection := ⟨|st.currentDirection.x|, st.currentDirection.z⟩ },
       { tr with translation := ⟨st.mapBounds.min.x, tr.translation.y, tr.translation.z⟩ })
    else if x > st.mapBounds.max.x then
      ({ st with currentDirection := ⟨-|st.currentDirection.x|, st.currentDirection.z⟩ },
       { tr with translation := ⟨st.mapBounds.max.x, tr.translation.y, tr.translation.z⟩ })
    else (st, tr)
  let st1 := p1.1
  let tr1 := p1.2
  if z < st1.mapBounds.min.z then
    ({ st1 with currentDirection := ⟨st1.currentDirection.x, |st1.currentDirection.z|⟩ },
     { tr1 with translation := ⟨tr1.translation.x, tr1.translation.y, st1.mapBounds.min.z⟩ })
  else if z > st1.mapBounds.max.z then
    ({ st1 with currentDirection := ⟨st1.currentDirection.x, -|st1.currentDirection.z|⟩ },
     { tr1 with translation := ⟨tr1.translation.x, tr1.translation.y, st1.mapBounds.max.z⟩ })
  else (st1, tr1)

/-- `SheepController.applyBoundaryConstraintsWithBounce(transform)`
(lines 584–612): same clamping, additionally reporting whether a wall was
hit. -/
def applyBoundaryConstraintsWithBounce (st : SheepState) (tr : Transform) :
    SheepState × Transform × Bool :=
  let x := tr.translation.x
  let z := tr.translation.z
  let p1 :=
    if x < st.mapBounds.min.x then
      ({ st with currentDirection := ⟨|st.currentDirection.x|, st.currentDirection.z⟩ },
       { tr with translation := ⟨st.mapBounds.min.x, tr.translation.y, tr.translation.z⟩ },
       true)
    else if x > st.mapBounds.max.x then
      ({ st with currentDirection := ⟨-|st.currentDirection.x|, st.currentDirection.z⟩ },
       { tr with translation := ⟨st.mapBounds.max.x, tr.translation.y, tr.translation.z⟩ },
       true)
    else (st, tr, false)
  let st1 := p1.1
  let tr1 := p1.2.1
  let hw1 := p1.2.2
  if z < st1.mapBounds.min.z then
    ({ st1 with currentDirection := ⟨st1.currentDirection.x, |st1.currentDirection.z|⟩ },
     { tr1 with translation := ⟨tr1.translation.x, tr1.translation.y, st1.mapBounds.min.z⟩ },
     true)
  else if z > st1.mapBounds.max.z then
    ({ st1 with currentDirection := ⟨st1.currentDirection.x, -|st1.currentDirection.z|⟩ },
     { tr1 with translation := ⟨tr1.translation.x, tr1.translation.y, st1.mapBounds.max.z⟩ },
     true)
  else (st1, tr1, hw1)

/-- The start of the launched-state branch of `SheepController.update`
(lines 191–199): accumulate airborne time, expire the 0.3 s
invulnerability window, apply gravity to the vertical velocity. -/
def launchTick (st : SheepState) (dt : ℚ) : SheepState :=
  let st := { st with launchDuration := st.launchDuration + dt }
  let st :=
    if st.launchInvulnerable ∧ st.launchDuration > 3/10 then
      { st with launchInvulnerable := false }
    else st
  { st with launchVelocity :=
    ⟨st.launchVelocity.x, st.launchVelocity.y + st.launchGravity * dt,
     st.launchVelocity.z⟩ }

/-- The shared ending of both launch-termination paths (lines 221–227 and
238–244): enter panic mode if scheduled, else re-pick a wander
direction. -/
def launchEnd (st : SheepState) (tr : Transform) (rng : List ℚ) :
    SheepState × List ℚ :=
  if st.shouldEnterPanicAfterLanding then
    let pr := enterPanicMode st (some tr) rng
    ({ pr.1 with shouldEnterPanicAfterLanding := false }, pr.2)
  else
    pickRandomDirection st (some tr) rng

/-- The launched-state branch of `SheepController.update` (lines 190–248):
integrate the launch arc under gravity, end the launch on a boundary hit
(reverting the horizontal move) or on touching ground after 0.2 s
airborne, entering panic or re-picking a direction.  `baseY` is always
`some` here (set at line 183 before this branch); the `getD 0` default is
unreachable. -/
def launchStep (st : SheepState) (tr : Transform) (dt : ℚ)
    (rng : List ℚ) : SheepState × Transform × List ℚ :=
  let st := launchTick st dt
  let oldPos := tr.translation
  let tr := { tr with translation :=
    ⟨oldPos.x + st.launchVelocity.x * dt,
     oldPos.y + st.launchVelocity.y * dt,
     oldPos.z + st.launchVelocity.z * dt⟩ }
  if tr.translation.x < st.mapBounds.min.x ∨
     tr.translation.x > st.mapBounds.max.x ∨
     tr.translation.z < st.mapBounds.min.z ∨
     tr.translation.z > st.mapBounds.max.z then
    let tr := { tr with translation := ⟨oldPos.x, st.baseY.getD 0, oldPos.z⟩ }
    let st := { st with isLaunched := false, launchVelocity := ⟨0, 0, 0⟩ }
    let pr := launchEnd st tr rng
    (pr.1, tr, pr.2)
  else
    match st.baseY with
    | some b0 =>
      if tr.translation.y ≤ b0 ∧ st.launchDuration > 1/5 then
        let tr := { tr with translation :=
          ⟨tr.translation.x, b0, tr.translation.z⟩ }
        let st := { st with isLaunched := false, launchVelocity := ⟨0, 0, 0⟩ }
        let pr := launchEnd st tr rng
        (pr.1, tr, pr.2)
      else (st, tr, rng)
    | none => (st, tr, rng)

/-- The panic-direction-change check (lines 264–268 of
`SheepController.update`): re-pick a random direction every
`panicDirectionChangeInterval` seconds. -/
def panicDirTick (st : SheepState) (tr : Transform) (rng : List ℚ) :
    SheepState × List ℚ :=
  if st.panicTimeSinceDirectionChange ≥ st.panicDirectionChangeInterval then
    let pr := pickRandomDirection st (some tr) rng
    ({ pr.1 with panicTimeSinceDirectionChange := 0 }, pr.2)
  else (st, rng)

/-- The panic-state block of `SheepController.update` (lines 253–300).
The `Bool` result is `true` when the source returns from `update` inside
this block (panic movement happened) and `false` when control falls
through (not panicking, or panic just expired). -/
def panicStep (st : SheepState) (tr : Transform) (dt : ℚ)
    (rng : List ℚ) : SheepState × Transform × List ℚ × Bool :=
  if st.isPanic then
    let st := { st with panicTimer := st.panicTimer - dt,
                        panicTimeSinceDirectionChange :=
                          st.panicTimeSinceDirectionChange + dt }
    if st.panicTimer ≤ 0 then
      let st := { st with isPanic := false, panicTimeSinceDirectionChange := 0 }
      let pr := pickRandomDirection st (some tr) rng
      (pr.1, tr, pr.2, false)
    else
      let p1 := panicDirTick st tr rng
      let st := p1.1
      let rng := p1.2
      let d := st.currentDirection
      let len := sqrtQ (d.x * d.x + d.z * d.z)
      let dx := if len > 0 then d.x / len else d.x
      let dz := if len > 0 then d.z / len else d.z
      let panicSpeed := st.moveSpeed * st.panicSpeedMultiplier
      let tr := { tr with translation :=
        ⟨tr.translation.x + dx * panicSpeed * dt, tr.translation.y,
         tr.translation.z + dz * panicSpeed * dt⟩ }
      let st := { st with walkTime := st.walkTime + dt * (5/2) }
      let bobOffset := sinQ (st.walkTime * st.bobSpeed) * st.bobHeight
      let tr := { tr with translation :=
        ⟨tr.translation.x, st.baseY.getD 0 + bobOffset, tr.translation.z⟩ }
      let targetRotation := quatRotateY quatIdentity (atan2Q dx dz)
      let tq := min (st.rotationSpeed * 3 * dt) 1
      let tr := { tr with rotation := slerpQ tr.rotation targetRotation tq }
      let bc := applyBoundaryConstraintsWithBounce st tr
      (bc.1, bc.2.1, rng, true)
  else (st, tr, rng, false)

/-- The flee-cooldown decrement of `SheepController.update`
(lines 302–305). -/
def cooldownStep (st : SheepState) (dt : ℚ) : SheepState :=
  if st.fleeCooldown > 0 then { st with fleeCooldown := st.fleeCooldown - dt }
  else st

/-- The flee entry/exit check of `SheepController.update` (lines 310–341).
`player` models `this.playerEntity` (`none` when unset) and, inside,
the player entity's `Transform` lookup. -/
def fleeCheck (st : SheepState) (tr : Transform)
    (player : Option (Option Transform)) (rng : List ℚ) :
    SheepState × List ℚ :=
  match player with
  | none => (st, rng)
  | some ptr? =>
    if st.isPanic then (st, rng)
    else
      match ptr? with
      | none => (st, rng)
      | some ptr =>
        let dx := ptr.translation.x - tr.translation.x
        let dz := ptr.translation.z - tr.translation.z
        let distanceToPlayer := sqrtQ (dx * dx + dz * dz)
        if distanceToPlayer < st.fleeRadius ∧ st.fleeCooldown ≤ 0 then
          if st.isFleeing then (st, rng)
          else
            ({ st with isFleeing := true, isPaused := false,
                       pauseTimeRemaining := 0,
                       fleeDirection :=
                         ⟨-dx / distanceToPlayer, -dz / distanceToPlayer⟩,
                       fleeDirectionUpdateTimer := 0,
                       lastFleePosition := ⟨tr.translation.x, tr.translation.z⟩,
                       fleeStuckCounter := 0 }, rng)
        else
          if distanceToPlayer > st.safeRadius ∧ st.isFleeing then
            pickRandomDirection
              { st with isFleeing := false,
                        fleeCooldown := st.fleeCooldownDuration } (some tr) rng
          else (st, rng)

/-- The per-frame use of the stored flee direction (lines 441–454 of
`SheepController.update`): renormalise it, or fall back to a freshly
sampled random direction when its length is degenerate (≤ 0.01). -/
def fleeDirNormalize (fd : Vec2) (rng : List ℚ) : Vec2 × List ℚ :=
  let len := sqrtQ (fd.x * fd.x + fd.z * fd.z)
  if len > 1/100 then (⟨fd.x / len, fd.z / len⟩, rng)
  else
    let r := draw rng
    let angle := r.1 * piQ * 2
    (⟨sinQ angle, cosQ angle⟩, r.2)

/-- The stuck-detection branch of the flee direction refresh
(lines 380–410 of `SheepController.update`): count a stuck refresh and,
on the second consecutive one, escape along the perpendicular that points
farther away from the player. -/
def fleeStuckBranch (st : SheepState) (toPlayerX toPlayerZ distToPlayer : ℚ) :
    SheepState :=
  let st := { st with fleeStuckCounter := st.fleeStuckCounter + 1 }
  if st.fleeStuckCounter ≥ 2 then
    let opt0 : Vec2 := ⟨-st.fleeDirection.z, st.fleeDirection.x⟩
    let opt1 : Vec2 := ⟨st.fleeDirection.z, -st.fleeDirection.x⟩
    let score0 := -(opt0.x * toPlayerX + opt0.z * toPlayerZ) / distToPlayer
    let score1 := -(opt1.x * toPlayerX + opt1.z * toPlayerZ) / distToPlayer
    let best := if score1 > score0 then opt1 else opt0
    { st with fleeDirection := best, fleeStuckCounter := 0,
              fleeForceEscapeTimer := 0 }
  else st

/-- The smooth-steering branch of the flee direction refresh
(lines 411–433 of `SheepController.update`): blend the stored direction
towards directly-away-from-player and renormalise. -/
def fleeBlendBranch (st : SheepState) (toPlayerX toPlayerZ distToPlayer : ℚ) :
    SheepState :=
  let st := { st with fleeStuckCounter := 0, fleeForceEscapeTimer := 0 }
  if distToPlayer > 1/100 then
    let directAwayX := -toPlayerX / distToPlayer
    let directAwayZ := -toPlayerZ / distToPlayer
    let blendFactor : ℚ := 2/5
    let fdx := st.fleeDirection.x * (1 - blendFactor) + directAwayX * blendFactor
    let fdz := st.fleeDirection.z * (1 - blendFactor) + directAwayZ * blendFactor
    let len := sqrtQ (fdx * fdx + fdz * fdz)
    if len > 1/100 then { st with fleeDirection := ⟨fdx / len, fdz / len⟩ }
    else { st with fleeDirection := ⟨fdx, fdz⟩ }
  else st

/-- The periodic flee direction refresh (lines 371–438 of
`SheepController.update`): detect a stuck agent by comparing displacement
since the last refresh with the stuck threshold, then take the stuck or
the smooth-steering branch and record the position. -/
def fleeRefresh (st : SheepState) (tr : Transform)
    (toPlayerX toPlayerZ distToPlayer : ℚ) : SheepState :=
  let st := { st with fleeDirectionUpdateTimer := 0 }
  let movedX := tr.translation.x - st.lastFleePosition.x
  let movedZ := tr.translation.z - st.lastFleePosition.z
  let distanceMoved := sqrtQ (movedX * movedX + movedZ * movedZ)
  let st :=
    if distanceMoved < st.fleeStuckThreshold then
      fleeStuckBranch st toPlayerX toPlayerZ distToPlayer
    else
      fleeBlendBranch st toPlayerX toPlayerZ distToPlayer
  { st with lastFleePosition := ⟨tr.translation.x, tr.translation.z⟩ }

/-- The flee movement body of `SheepController.update` (lines 361–487):
periodic direction refresh with stuck detection and perpendicular escape,
movement at flee speed, bobbing, rotation, boundary bounce.  The unused
locals `oldPosX`/`oldPosZ` of lines 458–459 are dead and omitted. -/
def fleeMove (st : SheepState) (tr : Transform) (dt : ℚ) (rng : List ℚ)
    (toPlayerX toPlayerZ distToPlayer : ℚ) :
    SheepState × Transform × List ℚ × Bool :=
  let st := { st with
    fleeDirectionUpdateTimer := st.fleeDirectionUpdateTimer + dt,
    fleeForceEscapeTimer := st.fleeForceEscapeTimer + dt }
  let st :=
    if st.fleeDirectionUpdateTimer ≥ st.fleeDirectionUpdateInterval ∨
       st.fleeForceEscapeTimer > 1 then
      fleeRefresh st tr toPlayerX toPlayerZ distToPlayer
    else st
  let fn := fleeDirNormalize st.fleeDirection rng
  let fleeX := fn.1.x
  let fleeZ := fn.1.z
  let rng := fn.2
  let fleeSpeed := st.moveSpeed * st.fleeSpeedMultiplier
  let tr := { tr with translation :=
    ⟨tr.translation.x + fleeX * fleeSpeed * dt, tr.translation.y,
     tr.translation.z + fleeZ * fleeSpeed * dt⟩ }
  let st := { st with walkTime := st.walkTime + dt * (9/5) }
  let bobOffset := sinQ (st.walkTime * st.bobSpeed) * st.bobHeight
  let tr := { tr with translation :=
    ⟨tr.translation.x, st.baseY.getD 0 + bobOffset, tr.translation.z⟩ }
  let targetRotation := quatRotateY quatIdentity (atan2Q fleeX fleeZ)
  let tq := min (st.rotationSpeed * (5/2) * dt) 1
  let tr := { tr with rotation := slerpQ tr.rotation targetRotation tq }
  let bc := applyBoundaryConstraintsWithBounce st tr
  let st := bc.1
  let tr := bc.2.1
  let hitWall := bc.2.2
  let st :=
    if hitWall then
      { st with fleeDirectionUpdateTimer := st.fleeDirectionUpdateInterval,
                fleeStuckCounter := st.fleeStuckCounter + 1 }
    else st
  (st, tr, rng, true)

/-- The flee movement block of `SheepController.update` (lines 347–490):
when fleeing with a player, either stop the flee on reaching the safe
radius (arming the cooldown and falling through to wandering, `Bool`
result `false`) or run `fleeMove` and return (`true`). -/
def fleeMoveStep (st : SheepState) (tr : Transform)
    (player : Option (Option Transform)) (dt : ℚ) (rng : List ℚ) :
    SheepState × Transform × List ℚ × Bool :=
  if st.isFleeing ∧ player.isSome then
    match player with
    | some (some ptr) =>
      let toPlayerX := ptr.translation.x - tr.translation.x
      let toPlayerZ := ptr.translation.z - tr.translation.z
      let distToPlayer := sqrtQ (toPlayerX * toPlayerX + toPlayerZ * toPlayerZ)
      if distToPlayer > st.safeRadius then
        let pr := pickRandomDirection
          { st with isFleeing := false,
                    fleeCooldown := st.fleeCooldownDuration } (some tr) rng
        (pr.1, tr, pr.2, false)
      else fleeMove st tr dt rng toPlayerX toPlayerZ distToPlayer
    | _ => (st, tr, rng, false)
  else (st, tr, rng, false)

/-- The wander direction-change timer block (lines 508–520 of
`SheepController.update`): upon reaching `directionChangeInterval`,
either enter a pause (with probability `pauseChance`) or pick a new
random direction. -/
def wanderDirTick (st : SheepState) (tr : Transform) (dt : ℚ)
    (rng : List ℚ) : SheepState × List ℚ :=
  let st := { st with timeSinceDirectionChange :=
    st.timeSinceDirectionChange + dt }
  if st.timeSinceDirectionChange ≥ st.directionChangeInterval then
    let r := draw rng
    let p2 :=
      if r.1 < st.pauseChance then
        ({ st with isPaused := true, pauseTimeRemaining := st.pauseDuration,
                   currentDirection := ⟨0, 0⟩ }, r.2)
      else pickRandomDirection st (some tr) r.2
    ({ p2.1 with timeSinceDirectionChange := 0 }, p2.2)
  else (st, rng)

/-- The wander/pause block of `SheepController.update` (lines 497–551). -/
def wanderStep (st : SheepState) (tr : Transform) (dt : ℚ)
    (rng : List ℚ) : SheepState × Transform × List ℚ :=
  if st.isPaused then
    let st := { st with pauseTimeRemaining := st.pauseTimeRemaining - dt }
    let p1 :=
      if st.pauseTimeRemaining ≤ 0 then
        pickRandomDirection { st with isPaused := false } (some tr) rng
      else (st, rng)
    let st := p1.1
    let rng := p1.2
    let tr := { tr with translation :=
      ⟨tr.translation.x, st.baseY.getD 0, tr.translation.z⟩ }
    (st, tr, rng)
  else
    let p1 := wanderDirTick st tr dt rng
    let st := p1.1
    let rng := p1.2
    let d := st.currentDirection
    let len := sqrtQ (d.x * d.x + d.z * d.z)
    if len > 0 then
      let dx := d.x / len
      let dz := d.z / len
      let tr := { tr with translation :=
        ⟨tr.translation.x + dx * st.moveSpeed * dt, tr.translation.y,
         tr.translation.z + dz * st.moveSpeed * dt⟩ }
      let st := { st with walkTime := st.walkTime + dt }
      let bobOffset := sinQ (st.walkTime * st.bobSpeed) * st.bobHeight
      let tr := { tr with translation :=
        ⟨tr.translation.x, st.baseY.getD 0 + bobOffset, tr.translation.z⟩ }
      let targetRotation := quatRotateY quatIdentity (atan2Q dx dz)
      let tq := min (st.rotationSpeed * dt) 1
      let tr := { tr with rotation := slerpQ tr.rotation targetRotation tq }
      let bc := applyBoundaryConstraints st tr
      (bc.1, bc.2, rng)
    else
      let tr := { tr with translation :=
        ⟨tr.translation.x, st.baseY.getD 0, tr.translation.z⟩ }
      (st, tr, rng)

/-- `SheepController.update(time, dt)` (lines 151–552).  The `time`
argument of the source is never read and is omitted.  Returns the updated
controller state, the (possibly updated) entity transform, and the
remaining random stream. -/
def update (st : SheepState) (tr? : Option Transform)
    (player : Option (Option Transform)) (dt : ℚ) (rng : List ℚ) :
    SheepState × Option Transform × List ℚ :=
  if dt ≤ 0 ∨ dt > 1/10 then (st, tr?, rng)
  else
    match tr? with
    | none => (st, none, rng)
    | some tr =>
      let st := if st.baseY.isNone
                then { st with baseY := some tr.translation.y } else st
      if st.isLaunched then
        let r := launchStep st tr dt rng
        (r.1, some r.2.1, r.2.2)
      else
        let p := panicStep st tr dt rng
        if p.2.2.2 then (p.1, some p.2.1, p.2.2.1)
        else
          let st := cooldownStep p.1 dt
          let tr := p.2.1
          let fc := fleeCheck st tr player p.2.2.1
          let fm := fleeMoveStep fc.1 tr player dt fc.2
          if fm.2.2.2 then (fm.1, some fm.2.1, fm.2.2.1)
          else
            let w := wanderStep fm.1 fm.2.1 dt fm.2.2.1
            (w.1, some w.2.1, w.2.2)

/-- The post-guard body of `SheepController.update` (lines 185–551), for a
state whose `baseY` has already been filled in: launch handling, panic,
flee cooldown, flee entry/exit check, flee movement and wander. -/
def updateBody (st : SheepState) (tr : Transform)
    (player : Option (Option Transform)) (dt : ℚ) (rng : List ℚ) :
    SheepState × Option Transform × List ℚ :=
  if st.isLaunched then
    let r := launchStep st tr dt rng
    (r.1, some r.2.1, r.2.2)
  else
    let p := panicStep st tr dt rng
    if p.2.2.2 then (p.1, some p.2.1, p.2.2.1)
    else
      let st := cooldownStep p.1 dt
      let tr := p.2.1
      let fc := fleeCheck st tr player p.2.2.1
      let fm := fleeMoveStep fc.1 tr player dt fc.2
      if fm.2.2.2 then (fm.1, some fm.2.1, fm.2.2.1)
      else
        let w := wanderStep fm.1 fm.2.1 dt fm.2.2.1
        (w.1, some w.2.1, w.2.2)

end SheepController

/-- A 4×4 matrix in glMatrix column-major element order (`m0`–`m15`). -/
structure Mat4 where
  m0 : ℚ
  m1 : ℚ
  m2 : ℚ
  m3 : ℚ
  m4 : ℚ
  m5 : ℚ
  m6 : ℚ
  m7 : ℚ
  m8 : ℚ
  m9 : ℚ
  m10 : ℚ
  m11 : ℚ
  m12 : ℚ
  m13 : ℚ
  m14 : ℚ
  m15 : ℚ
  deriving DecidableEq

/-- glMatrix `mat4.identity`. -/
def mat4Identity : Mat4 :=
  ⟨1, 0, 0, 0, 0, 1, 0, 0, 0, 0, 1, 0, 0, 0, 0, 1⟩

/-- glMatrix `mat4.fromRotationTranslationScale(out, q, v, s)`. -/
def fromRotationTranslationScale (q : Quat) (v s : Vec3) : Mat4 :=
  let x2 := q.x + q.x
  let y2 := q.y + q.y
  let z2 := q.z + q.z
  let xx := q.x * x2
  let xy := q.x * y2
  let xz := q.x * z2
  let yy := q.y * y2
  let yz := q.y * z2
  let zz := q.z * z2
  let wx := q.w * x2
  let wy := q.w * y2
  let wz := q.w * z2
  ⟨(1 - (yy + zz)) * s.x, (xy + wz) * s.x, (xz - wy) * s.x, 0,
   (xy - wz) * s.y, (1 - (xx + zz)) * s.y, (yz + wx) * s.y, 0,
   (xz + wy) * s.z, (yz - wx) * s.z, (1 - (xx + yy)) * s.z, 0,
   v.x, v.y, v.z, 1⟩

/-- glMatrix `vec3.transformMat4(out, a, m)` (including its `w || 1`
guard). -/
def transformMat4 (m : Mat4) (a : Vec3) : Vec3 :=
  let w0 := m.m3 * a.x + m.m7 * a.y + m.m11 * a.z + m.m15
  let w := if w0 = 0 then 1 else w0
  ⟨(m.m0 * a.x + m.m4 * a.y + m.m8 * a.z + m.m12) / w,
   (m.m1 * a.x + m.m5 * a.y + m.m9 * a.z + m.m13) / w,
   (m.m2 * a.x + m.m6 * a.y + m.m10 * a.z + m.m14) / w⟩

/-- The `entity.aabb` object: its `min`/`max` members may be absent (the
camera is given an aabb object, other entities may carry one without
corners; `Physics.update` line 33 checks for this). -/
structure AabbOpt where
  min : Option Vec3
  max : Option Vec3
  deriving DecidableEq

/-- A world-space box as returned by `Physics.getTransformedAABB`. -/
structure Aabb where
  min : Vec3
  max : Vec3
  deriving DecidableEq

/-- A world object as iterated by `Physics.update`: the
`customProperties` flags, the optional local-space `aabb`, the optional
`Transform` component, and the optional `SheepController` component. -/
structure Entity where
  isDynamic : Bool
  isStatic : Bool
  isSeno : Bool
  isSheepProp : Bool
  aabb : Option AabbOpt
  transform : Option Transform
  sheep : Option SheepState
  deriving DecidableEq

namespace Physics

/-- Modelled from the spec: `getGlobalModelMatrix` of
`engine/core/SceneUtils.js`, a file of this repository not present under
`src/`.  Spec §3: the world-space AABB is derived "by applying the
object's current world matrix"; the scene graph is out of the core's
scope (§1), so the world matrix of an object is the matrix of its own
`Transform` (identity when the component is missing). -/
def getGlobalModelMatrix (e : Entity) : Mat4 :=
  match e.transform with
  | some tr => fromRotationTranslationScale tr.rotation tr.translation tr.scale
  | none => mat4Identity

/-- `Physics.getTransformedAABB(entity)` (lines 202–224): transform the 8
local corners by the world matrix and take componentwise min/max.  The
fallback for a missing `aabb`/corner (never reached from the guarded call
sites) is the degenerate box at the origin. -/
def getTransformedAABB (e : Entity) : Aabb :=
  let matrix := getGlobalModelMatrix e
  match e.aabb with
  | some ⟨some mn, some mx⟩ =>
    let verts : List Vec3 :=
      [⟨mn.x, mn.y, mn.z⟩, ⟨mn.x, mn.y, mx.z⟩, ⟨mn.x, mx.y, mn.z⟩,
       ⟨mn.x, mx.y, mx.z⟩, ⟨mx.x, mn.y, mn.z⟩, ⟨mx.x, mn.y, mx.z⟩,
       ⟨mx.x, mx.y, mn.z⟩, ⟨mx.x, mx.y, mx.z⟩].map (transformMat4 matrix)
    let xs := verts.map (·.x)
    let ys := verts.map (·.y)
    let zs := verts.map (·.z)
    { min := ⟨(xs.foldl min (xs.headD 0)), (ys.foldl min (ys.headD 0)),
              (zs.foldl min (zs.headD 0))⟩,
      max := ⟨(xs.foldl max (xs.headD 0)), (ys.foldl max (ys.headD 0)),
              (zs.foldl max (zs.headD 0))⟩ }
  | _ => { min := ⟨0, 0, 0⟩, max := ⟨0, 0, 0⟩ }

/-- `Physics.intervalIntersection` (lines 192–194). -/
def intervalIntersection (min1 max1 min2 max2 : ℚ) : Prop :=
  ¬(min1 > max2 ∨ min2 > max1)

instance (min1 max1 min2 max2 : ℚ) :
    Decidable (intervalIntersection min1 max1 min2 max2) := by
  unfold intervalIntersection; infer_instance

/-- `Physics.aabbIntersection` (lines 196–200). -/
def aabbIntersection (a b : Aabb) : Prop :=
  intervalIntersection a.min.x a.max.x b.min.x b.max.x ∧
  intervalIntersection a.min.y a.max.y b.min.y b.max.y ∧
  intervalIntersection a.min.z a.max.z b.min.z b.max.z

instance (a b : Aabb) : Decidable (aabbIntersection a b) := by
  unfold aabbIntersection; infer_instance

/-- One candidate test of the minimal-correction scan (the repeated
`if (diff >= 0 && diff < minDiff)` pattern of lines 244–267): `acc` is
the pair of the best difference so far (`none` models the initial
`Infinity`) and the direction vector chosen with it. -/
def corrStep (d : ℚ) (dir : Vec3) (acc : Option ℚ × Vec3) : Option ℚ × Vec3 :=
  match acc with
  | (none, v) => if 0 ≤ d then (some d, dir) else (none, v)
  | (some m, v) => if 0 ≤ d ∧ d < m then (some d, dir) else (some m, v)

/-- The minimal-correction scan shared by `calculateCorrectionVector` and
`resolveCollision`: the six candidates in source evaluation order
(X, Y, Z of `diffa` with positive direction, then of `diffb` with
negative direction). -/
def minCorrection (aBox bBox : Aabb) : Vec3 :=
  let diffa : Vec3 := ⟨bBox.max.x - aBox.min.x, bBox.max.y - aBox.min.y,
                       bBox.max.z - aBox.min.z⟩
  let diffb : Vec3 := ⟨aBox.max.x - bBox.min.x, aBox.max.y - bBox.min.y,
                       aBox.max.z - bBox.min.z⟩
  let s := corrStep diffa.x ⟨diffa.x, 0, 0⟩ (none, ⟨0, 0, 0⟩)
  let s := corrStep diffa.y ⟨0, diffa.y, 0⟩ s
  let s := corrStep diffa.z ⟨0, 0, diffa.z⟩ s
  let s := corrStep diffb.x ⟨-diffb.x, 0, 0⟩ s
  let s := corrStep diffb.y ⟨0, -diffb.y, 0⟩ s
  let s := corrStep diffb.z ⟨0, 0, -diffb.z⟩ s
  s.2

/-- `Physics.calculateCorrectionVector(aBox, bBox)` (lines 156–190). -/
def calculateCorrectionVector (aBox bBox : Aabb) : Vec3 :=
  minCorrection aBox bBox

/-- `Physics.resolveCollision(a, b)` (lines 226–284): if the world-space
boxes intersect, translate `a` by the minimal correction and restore its
original Y.  Returns the collision flag and the (possibly updated) pair;
the source never writes to `b`, so `b` is returned unchanged. -/
def resolveCollision (a b : Entity) : Bool × Entity × Entity :=
  let aBox := getTransformedAABB a
  let bBox := getTransformedAABB b
  if aabbIntersection aBox bBox then
    let minDirection := minCorrection aBox bBox
    match a.transform with
    | none => (false, a, b)
    | some tr =>
      let originalY := tr.translation.y
      let moved : Vec3 := ⟨tr.translation.x + minDirection.x,
                           tr.translation.y + minDirection.y,
                           tr.translation.z + minDirection.z⟩
      (true,
       { a with transform := some { tr with translation :=
           ⟨moved.x, originalY, moved.z⟩ } },
       b)
  else (false, a, b)

/-- The collision-pass state: the scene (a stable ordered entity list;
object identity and `scene.indexOf` are modelled by list position), the
random stream (consumed by `pickRandomDirection` on launch-cancelling
hits), and the capture notifications raised so far (list of captured
agents' scene indices). -/
structure PhysState where
  scene : List Entity
  rng : List ℚ
  events : List ℕ
  deriving DecidableEq

/-- Modelled from the spec: the capture notification (`onSheepEnterSeno`).
The `Physics` revision that invokes the callback is not present under
`src/` (only its registration site, `new Physics(scene, {onSheepEnterSeno})`
in `src/unnamed/part_004` lines 336–341, is).  Spec §6: the notification
is "raised once per agent per capture transition", so it is modelled as
raised exactly when the capture check succeeds for an agent whose
captured flag (`isOnSeno`) is not yet set. -/
def captureEvents (alreadyOnSeno : Bool) (i : ℕ) : List ℕ :=
  if alreadyOnSeno then [] else [i]

/-- Replace the translation of an entity's transform (the temporary
position writes of the swept-collision loop). -/
def setTranslation (e : Entity) (p : Vec3) : Entity :=
  match e.transform with
  | some tr => { e with transform := some { tr with translation := p } }
  | none => e

/-- The swept-collision substep loop of `Physics.update` (lines 85–103):
test interpolated positions along the motion segment and resolve at the
first colliding one, restoring the position after each non-colliding
test.  (The loop is dead code: its guard compares a position with an
immediately taken clone of itself, see `physStaticResolve`.) -/
def sweptResolve (o : Entity) (posBefore currentPos : Vec3) (steps : ℕ) :
    Entity → List ℕ → Bool × Entity
  | e, [] => (false, e)
  | e, i :: rest =>
    let t := (i : ℚ) / (steps : ℚ)
    let intermediatePos := vec3lerp posBefore currentPos t
    let originalPos := ((e.transform.map (·.translation)).getD intermediatePos)
    let r := resolveCollision (setTranslation e intermediatePos) o
    if r.1 then (true, r.2.1)
    else sweptResolve o posBefore currentPos steps (setTranslation r.2.1 originalPos) rest

/-- The static-collision resolution of `Physics.update` (lines 72–121):
resolve entity `i` against static object `o` (with the dead swept-check
structure kept: `posBefore` is cloned from the live translation and
compared against the same vector, so `moveDistance` is always 0), then,
if a still-launched sheep was hit, cancel the launch, snap to ground
height and re-pick a wander direction. -/
def physStaticResolve (ps : PhysState) (i : ℕ) (e o : Entity)
    (isLaunchedSheep : Bool) : PhysState :=
  let rc :=
    match e.transform with
    | some tr =>
      let posBefore := tr.translation
      let currentPos := tr.translation
      let moveDistance := vec3dist posBefore currentPos
      if moveDistance > 2 then
        let steps := (moveDistance / 2).ceil.toNat
        sweptResolve o posBefore currentPos steps e (List.range (steps + 1))
      else
        let r := resolveCollision e o
        (r.1, r.2.1)
    | none =>
      let r := resolveCollision e o
      (r.1, r.2.1)
  let e1 := rc.2
  let ps := { ps with scene := ps.scene.set i e1 }
  if rc.1 ∧ isLaunchedSheep then
    match e1.sheep with
    | some stc =>
      let stc := { stc with isLaunched := false, launchVelocity := ⟨0, 0, 0⟩ }
      let tr2? :=
        match e1.transform, stc.baseY with
        | some tr, some b0 =>
          some { tr with translation := ⟨tr.translation.x, b0, tr.translation.z⟩ }
        | some tr, none => some tr
        | none, _ => none
      let pr := SheepController.pickRandomDirection stc tr2? ps.rng
      { ps with scene := ps.scene.set i { e1 with transform := tr2?, sheep := some pr.1 },
                rng := pr.2 }
    | none => ps
  else ps

/-- The static-object branch of `Physics.update` (lines 31–121): skip
objects whose aabb lacks corners, handle the sheep-on-seno capture check
(2D X–Z overlap plus near-ground height; on capture mark the sheep, clear
its states, store the seno bounds and skip resolution), otherwise fall
through to `physStaticResolve`. -/
def physStatic (ps : PhysState) (i : ℕ) (e o : Entity)
    (isLaunchedSheep : Bool) : PhysState :=
  match o.aabb with
  | some ob =>
    if ob.min.isNone ∨ ob.max.isNone then ps
    else
      let isSheep := e.sheep.isSome ∨ e.isSheepProp
      if isSheep ∧ o.isSeno then
        let sheepAABB := getTransformedAABB e
        let senoAABB := getTransformedAABB o
        if (sheepAABB.min.x ≤ senoAABB.max.x ∧ sheepAABB.max.x ≥ senoAABB.min.x) ∧
           (sheepAABB.min.z ≤ senoAABB.max.z ∧ sheepAABB.max.z ≥ senoAABB.min.z) ∧
           sheepAABB.min.y ≤ senoAABB.max.y + 1 then
          match e.sheep with
          | some stc =>
            let stc1 := { stc with
              isOnSeno := true,
              senoBounds := some ⟨⟨senoAABB.min.x, senoAABB.min.z⟩,
                                  ⟨senoAABB.max.x, senoAABB.max.z⟩⟩,
              isLaunched := false, isPanic := false,
              isFleeing := false, launchVelocity := ⟨0, 0, 0⟩ }
            { ps with scene := ps.scene.set i { e with sheep := some stc1 },
                      events := ps.events ++ captureEvents stc.isOnSeno i }
          | none => ps
        else physStaticResolve ps i e o isLaunchedSheep
      else physStaticResolve ps i e o isLaunchedSheep
  | none => ps

/-- One inner-loop iteration of `Physics.update` (lines 19–150) for the
pair `(i, j)`: skip self-pairs, pairs whose other side lacks an aabb or
is invulnerable; dispatch static others to `physStatic`; resolve dynamic
others once per unordered pair unless the mover is invulnerable or
exactly one side is captured on the seno.  `isLaunchedSheep` and
`isInvulnerable` are the values the source reads from the mover's
controller before its inner loop (lines 15–17). -/
def physPair (ps : PhysState) (i j : ℕ)
    (isLaunchedSheep isInvulnerable : Bool) : PhysState :=
  match ps.scene.get? i, ps.scene.get? j with
  | some e, some o =>
    if i = j then ps
    else if o.aabb.isSome then
      if ((o.sheep.map (·.launchInvulnerable)).getD false) then ps
      else if o.isStatic then physStatic ps i e o isLaunchedSheep
      else if o.isDynamic then
        if isInvulnerable then ps
        else if i < j then
          let isEntityOnSeno := (e.sheep.map (·.isOnSeno)).getD false
          let isOtherOnSeno := (o.sheep.map (·.isOnSeno)).getD false
          if (isEntityOnSeno ∧ isOtherOnSeno) ∨
             (¬isEntityOnSeno ∧ ¬isOtherOnSeno) then
            let r := resolveCollision e o
            { ps with scene := ps.scene.set i r.2.1 }
          else ps
        else ps
      else ps
    else ps
  | _, _ => ps

/-- One outer-loop iteration of `Physics.update` (lines 12–152) for the
mover at index `i`: only dynamic entities with an aabb resolve; the
mover's launched/invulnerable flags are read once before the inner
loop. -/
def physRow (ps : PhysState) (i : ℕ) : PhysState :=
  match ps.scene.get? i with
  | some e =>
    if e.isDynamic ∧ e.aabb.isSome then
      let isLaunchedSheep := (e.sheep.map (·.isLaunched)).getD false
      let isInvulnerable := (e.sheep.map (·.launchInvulnerable)).getD false
      (List.range ps.scene.length).foldl
        (fun acc j => physPair acc i j isLaunchedSheep isInvulnerable) ps
    else ps
  | none => ps

/-- `Physics.update(t, dt)` (lines 11–154).  Neither `t` nor `dt` is read
by the source body; they are kept for the interface. -/
def update (_t _dt : ℚ) (ps : PhysState) : PhysState :=
  (List.range ps.scene.length).foldl physRow ps

end Physics

/-- The containment predicate of the boundary-containment property: the X
and Z components of a position lie within a planar bounds rectangle. -/
def inBoundsXZ (b : Bounds2) (v : Vec3) : Prop :=
  b.min.x ≤ v.x ∧ v.x ≤ b.max.x ∧ b.min.z ≤ v.z ∧ v.z ≤ b.max.z

instance (b : Bounds2) (v : Vec3) : Decidable (inBoundsXZ b v) := by
  unfold inBoundsXZ; infer_instance

/-- An entity is marked captured: it carries a controller whose
`isOnSeno` flag is set. -/
def entCap (e : Entity) : Prop :=
  ∃ stc, e.sheep = some stc ∧ stc.isOnSeno = true

/-- The agent at scene index `k` is marked captured. -/
def capturedAt (sc : List Entity) (k : ℕ) : Prop :=
  ∃ e, sc.get? k = some e ∧ entCap e

/-- The 2D (X, Z) agent-to-player distance computed by the flee logic
(`Sheep.controller.js` lines 313–315 and 350–352). -/
def playerDistance2D (tr ptr : Transform) : ℚ :=
  sqrtQ ((ptr.translation.x - tr.translation.x) *
           (ptr.translation.x - tr.translation.x) +
         (ptr.translation.z - tr.translation.z) *
           (ptr.translation.z - tr.translation.z))

/-- A controller state with the constructor's default configuration
(`Sheep.controller.js` lines 6–87) and quiescent live state, used as the
base of the concrete evaluations below. -/
def baseSheep : SheepState where
  moveSpeed := 3/2
  directionChangeInterval := 7
  mapBounds := ⟨⟨-115, -115⟩, ⟨33, 33⟩⟩
  pauseChance := 1/5
  pauseDuration := 2
  bobHeight := 1/25
  bobSpeed := 8
  rotationSpeed := 5
  fleeRadius := 10
  safeRadius := 15
  fleeSpeedMultiplier := 6
  isFleeing := false
  fleeCooldown := 0
  fleeCooldownDuration := 6
  fleeDirection := ⟨0, 0⟩
  fleeDirectionUpdateTimer := 0
  fleeDirectionUpdateInterval := 1/10
  lastFleePosition := ⟨0, 0⟩
  fleeStuckCounter := 0
  fleeStuckThreshold := 1/2
  fleeForceEscapeTimer := 0
  isPanic := false
  panicTimer := 0
  panicDuration := 2
  panicSpeedMultiplier := 9/2
  panicDirectionChangeInterval := 3/4
  panicTimeSinceDirectionChange := 0
  currentDirection := ⟨0, 1⟩
  timeSinceDirectionChange := 0
  isPaused := false
  pauseTimeRemaining := 0
  isLaunched := false
  launchVelocity := ⟨0, 0, 0⟩
  launchGravity := -49/5
  launchDuration := 0
  shouldEnterPanicAfterLanding := false
  walkTime := 0
  baseY := some 0
  launchInvulnerable := false
  isOnSeno := false
  senoBounds := none

/-- An identity-rotation, unit-scale transform at a given position. -/
def trAt (x y z : ℚ) : Transform := ⟨⟨x, y, z⟩, quatIdentity, ⟨1, 1, 1⟩⟩

/-- A paused sheep at the map's +X edge (position (33, 0, 0), inside the
bounds rectangle). -/
def c1St : SheepState :=
  { baseSheep with isPaused := true, pauseTimeRemaining := 10,
                   currentDirection := ⟨0, 0⟩ }

/-- The transform of the sheep of `c1St`. -/
def c1Tr : Transform := trAt 33 0 0

/-- One behaviour update of the `c1St` sheep with a valid `dt`. -/
def c1Upd : SheepState × Option Transform × List ℚ :=
  SheepController.update c1St (some c1Tr) none (1/20) []

/-- The sheep entity after its behaviour update, with a unit-cube local
aabb. -/
def c1SheepEnt : Entity :=
  ⟨true, false, false, false, some ⟨some ⟨-1, -1, -1⟩, some ⟨1, 1, 1⟩⟩,
   c1Upd.2.1, some c1Upd.1⟩

/-- A static obstacle just inside the +X map edge whose world box is
[30, 65/2] × [-2, 2] × [-2, 2] (no transform: identity world matrix). -/
def c1Box : Entity :=
  ⟨false, true, false, false, some ⟨some ⟨30, -2, -2⟩, some ⟨65/2, 2, 2⟩⟩,
   none, none⟩

/-- The collision pass over the sheep-and-obstacle scene of the
boundary-containment test. -/
def c1Pass : Physics.PhysState :=
  Physics.update 0 (1/20) ⟨[c1SheepEnt, c1Box], c1Upd.2.2, []⟩

/-- A wandering sheep entity standing at the origin, inside the capture
zone of `c3Seno`. -/
def c3Sheep0 : Entity :=
  ⟨true, false, false, false, some ⟨some ⟨-1, -1, -1⟩, some ⟨1, 1, 1⟩⟩,
   some (trAt 0 0 0), some baseSheep⟩

/-- A static seno (capture zone) whose world box is
[-2, 2] × [-1, 1] × [-2, 2]. -/
def c3Seno : Entity :=
  ⟨false, true, true, false, some ⟨some ⟨-2, -1, -2⟩, some ⟨2, 1, 2⟩⟩,
   none, none⟩

/-- First collision pass: the sheep is inside the capture zone. -/
def c3Pass1 : Physics.PhysState :=
  Physics.update 0 (1/20) ⟨[c3Sheep0, c3Seno], [], []⟩

/-- The sheep entity after the first (capturing) pass. -/
def c3E1 : Entity := (c3Pass1.scene.get? 0).getD c3Sheep0

/-- Second collision pass, after the sheep has moved out of the capture
zone (position (10, 0, 0); the teleport stands for the intervening
behaviour updates that wander it out). -/
def c3Pass2 : Physics.PhysState :=
  Physics.update 0 (1/20)
    ⟨[{ c3E1 with transform := some (trAt 10 0 0) }, c3Seno], c3Pass1.rng, []⟩

/-- The sheep entity after the second pass. -/
def c3E2 : Entity := (c3Pass2.scene.get? 0).getD c3Sheep0

/-- The sheep re-entering the capture zone (back at the origin). -/
def c3S3 : Entity := { c3E2 with transform := some (trAt 0 0 0) }

/-- Third collision pass: the sheep is inside the capture zone again. -/
def c3Pass3 : Physics.PhysState :=
  Physics.update 0 (1/20) ⟨[c3S3, c3Seno], c3Pass2.rng, []⟩

/-- A sheep in its post-launch invulnerability window (flag set), standing
at the +X map edge overlapping the static obstacle `c1Box`. -/
def c4St : SheepState := { baseSheep with launchInvulnerable := true }

/-- The invulnerable sheep entity of `c4St`. -/
def c4Sheep : Entity :=
  ⟨true, false, false, false, some ⟨some ⟨-1, -1, -1⟩, some ⟨1, 1, 1⟩⟩,
   some (trAt 33 0 0), some c4St⟩

/-- The collision pass over the invulnerable sheep and the static
obstacle. -/
def c4Pass : Physics.PhysState :=
  Physics.update 0 (1/20) ⟨[c4Sheep, c1Box], [], []⟩

/-- A sheep immediately after the launch command `launch([1,0,0], 5)`. -/
def c5S0 : SheepState := SheepController.launch baseSheep ⟨1, 0, 0⟩ 5

/-- The launched sheep's transform: at the +X map edge, so the first
airborne update crosses the boundary. -/
def c5Tr0 : Transform := trAt 33 0 0

/-- First update after the launch (dt = 1/20): the boundary hit cancels
the launch at accumulated time 1/20 s. -/
def c5U1 : SheepState × Option Transform × List ℚ :=
  SheepController.update c5S0 (some c5Tr0) none (1/20) [1/2]

/-- Second update (dt = 1/10). -/
def c5U2 : SheepState × Option Transform × List ℚ :=
  SheepController.update c5U1.1 c5U1.2.1 none (1/10) c5U1.2.2

/-- Third update (dt = 1/10). -/
def c5U3 : SheepState × Option Transform × List ℚ :=
  SheepController.update c5U2.1 c5U2.2.1 none (1/10) c5U2.2.2

/-- Fourth update (dt = 1/10): accumulated time since the launch command
is now 1/20 + 3 · (1/10) = 7/20 > 3/10 seconds. -/
def c5U4 : SheepState × Option Transform × List ℚ :=
  SheepController.update c5U3.1 c5U3.2.1 none (1/10) c5U3.2.2

/-- A sheep that was launched while fleeing (the launch command does not
clear `isFleeing`), one tick before landing. -/
def c6St : SheepState :=
  { baseSheep with isFleeing := true, isLaunched := true,
                   launchVelocity := ⟨0, -1, 0⟩, launchDuration := 1,
                   shouldEnterPanicAfterLanding := true }

/-- The fleeing, airborne sheep's transform, just above ground height. -/
def c6Tr : Transform := trAt 0 (1/100) 0

/-- The player transform at 2D distance 1 from the sheep. -/
def c6Ptr : Transform := trAt 1 0 0

/-- The landing update of the fleeing launched sheep. -/
def c6U : SheepState × Option Transform × List ℚ :=
  SheepController.update c6St (some c6Tr) (some (some c6Ptr)) (1/20) [1/3]

/-- A wandering sheep whose current direction is the zero vector. -/
def c8St : SheepState := { baseSheep with currentDirection := ⟨0, 0⟩ }

/-- The transform of the zero-direction sheep. -/
def c8Tr : Transform := trAt 0 0 0

/-- One wander update of the zero-direction sheep (the random stream is
supplied but, as the theorem shows, never consumed). -/
def c8U : SheepState × Option Transform × List ℚ :=
  SheepController.update c8St (some c8Tr) none (1/20) [1/2]

/-- Scene for the capture-pair witness: the in-zone sheep and the seno. -/
def c2wPs : Physics.PhysState := ⟨[c3Sheep0, c3Seno], [], []⟩

/-- Transform used for the invalid-dt witness. -/
def c7wTr : Transform := trAt 1 2 3

/-- A wandering sheep inside the bounds, for the containment witness. -/
def c1wTr : Transform := trAt 0 0 0

/-- The transform produced by the containment-witness update. -/
def c1wOut : Transform :=
  ((SheepController.update baseSheep (some c1wTr) none (1/20) [1/2]).2.1).getD c1wTr

/-- A captured (on-seno) controller state. -/
def c10CapSt : SheepState := { baseSheep with isOnSeno := true }

/-- A free (not captured) dynamic sheep entity at the origin. -/
def c10Free : Entity :=
  ⟨true, false, false, false, some ⟨some ⟨-1, -1, -1⟩, some ⟨1, 1, 1⟩⟩,
   some (trAt 0 0 0), some baseSheep⟩

/-- A captured dynamic sheep entity overlapping the free one. -/
def c10Cap : Entity :=
  ⟨true, false, false, false, some ⟨some ⟨-1, -1, -1⟩, some ⟨1, 1, 1⟩⟩,
   some (trAt 1 0 0), some c10CapSt⟩

/-- Scene for the captured-persistence witness. -/
def c10wPs : Physics.PhysState := ⟨[c10Free, c10Cap], [], []⟩

/-- The player transform for the flee-hysteresis witness, at 2D distance 5
from the origin (below the flee radius 10). -/
def c6wPtr : Transform := trAt 5 0 0

/-- Scene for the invulnerability-skip witness: a free sheep and the
invulnerable sheep entity. -/
def c4wPs : Physics.PhysState := ⟨[c10Free, c4Sheep], [], []⟩

/-- The captured controller state the capture branch writes for the
sheep of `c2wPs` against the seno `c3Seno`. -/
def c2wCap : SheepState :=
  { baseSheep with
    isOnSeno := true,
    senoBounds := some ⟨⟨(Physics.getTransformedAABB c3Seno).min.x,
                         (Physics.getTransformedAABB c3Seno).min.z⟩,
                        ⟨(Physics.getTransformedAABB c3Seno).max.x,
                         (Physics.getTransformedAABB c3Seno).max.z⟩⟩,
    isLaunched := false, isPanic := false, isFleeing := false,
    launchVelocity := ⟨0, 0, 0⟩ }

/-- The sheep entity of `c2wPs` as rewritten by the capture branch. -/
def c2wEnt : Entity := { c3Sheep0 with sheep := some c2wCap }

theorem sinQ_sq_add_cosQ_sq (t : ℚ) : sinQ t ^ 2 + cosQ t ^ 2 = 1 := by
  have h : (1 + t ^ 2) ≠ 0 := by positivity
  unfold sinQ cosQ
  field_simp
  ring

namespace SheepController

theorem pickRandomDirection_shape (st : SheepState) (tr? : Option Transform)
    (rng : List ℚ) : ∃ d rng2,
    pickRandomDirection st tr? rng = ({ st with currentDirection := d }, rng2) := by
  cases tr? with
  | none => exact ⟨st.currentDirection, rng, rfl⟩
  | some tr =>
    simp only [pickRandomDirection]
    split_ifs <;> exact ⟨_, _, rfl⟩

@[simp] theorem pickRandomDirection_isOnSeno (st : SheepState)
    (tr? : Option Transform) (rng : List ℚ) :
    (pickRandomDirection st tr? rng).1.isOnSeno = st.isOnSeno := by
  obtain ⟨d, r2, h⟩ := pickRandomDirection_shape st tr? rng
  rw [h]

@[simp] theorem pickRandomDirection_mapBounds (st : SheepState)
    (tr? : Option Transform) (rng : List ℚ) :
    (pickRandomDirection st tr? rng).1.mapBounds = st.mapBounds := by
  obtain ⟨d, r2, h⟩ := pickRandomDirection_shape st tr? rng
  rw [h]

@[simp] theorem pickRandomDirection_isFleeing (st : SheepState)
    (tr? : Option Transform) (rng : List ℚ) :
    (pickRandomDirection st tr? rng).1.isFleeing = st.isFleeing := by
  obtain ⟨d, r2, h⟩ := pickRandomDirection_shape st tr? rng
  rw [h]

@[simp] theorem pickRandomDirection_isPanic (st : SheepState)
    (tr? : Option Transform) (rng : List ℚ) :
    (pickRandomDirection st tr? rng).1.isPanic = st.isPanic := by
  obtain ⟨d, r2, h⟩ := pickRandomDirection_shape st tr? rng
  rw [h]

@[simp] theorem pickRandomDirection_isPaused (st : SheepState)
    (tr? : Option Transform) (rng : List ℚ) :
    (pickRandomDirection st tr? rng).1.isPaused = st.isPaused := by
  obtain ⟨d, r2, h⟩ := pickRandomDirection_shape st tr? rng
  rw [h]

@[simp] theorem pickRandomDirection_fleeCooldown (st : SheepState)
    (tr? : Option Transform) (rng : List ℚ) :
    (pickRandomDirection st tr? rng).1.fleeCooldown = st.fleeCooldown := by
  obtain ⟨d, r2, h⟩ := pickRandomDirection_shape st tr? rng
  rw [h]

@[simp] theorem pickRandomDirection_fleeCooldownDuration (st : SheepState)
    (tr? : Option Transform) (rng : List ℚ) :
    (pickRandomDirection st tr? rng).1.fleeCooldownDuration =
      st.fleeCooldownDuration := by
  obtain ⟨d, r2, h⟩ := pickRandomDirection_shape st tr? rng
  rw [h]

theorem enterPanicMode_shape (st : SheepState) (tr? : Option Transform)
    (rng : List ℚ) : ∃ d rng2,
    enterPanicMode st tr? rng =
      ({ st with isPanic := true, panicTimer := st.panicDuration,
                 panicTimeSinceDirectionChange := 0, isPaused := false,
                 isFleeing := false, currentDirection := d }, rng2) := by
  unfold enterPanicMode
  obtain ⟨d, r2, h⟩ := pickRandomDirection_shape
    { st with isPanic := true, panicTimer := st.panicDuration,
              panicTimeSinceDirectionChange := 0, isPaused := false,
              isFleeing := false } tr? rng
  exact ⟨d, r2, h⟩

@[simp] theorem enterPanicMode_isOnSeno (st : SheepState)
    (tr? : Option Transform) (rng : List ℚ) :
    (enterPanicMode st tr? rng).1.isOnSeno = st.isOnSeno := by
  obtain ⟨d, r2, h⟩ := enterPanicMode_shape st tr? rng
  rw [h]

@[simp] theorem enterPanicMode_mapBounds (st : SheepState)
    (tr? : Option Transform) (rng : List ℚ) :
    (enterPanicMode st tr? rng).1.mapBounds = st.mapBounds := by
  obtain ⟨d, r2, h⟩ := enterPanicMode_shape st tr? rng
  rw [h]

theorem applyBoundaryConstraints_shape (st : SheepState) (tr : Transform) :
    ∃ d tr2, applyBoundaryConstraints st tr =
      ({ st with currentDirection := d }, tr2) := by
  simp only [applyBoundaryConstraints]
  split_ifs <;> exact ⟨_, _, rfl⟩

theorem applyBoundaryConstraintsWithBounce_shape (st : SheepState)
    (tr : Transform) : ∃ d tr2 hw,
    applyBoundaryConstraintsWithBounce st tr =
      ({ st with currentDirection := d }, tr2, hw) := by
  simp only [applyBoundaryConstraintsWithBounce]
  split_ifs <;> exact ⟨_, _, _, rfl⟩

@[simp] theorem bounce_isOnSeno (st : SheepState) (tr : Transform) :
    (applyBoundaryConstraintsWithBounce st tr).1.isOnSeno = st.isOnSeno := by
  obtain ⟨d, tr2, hw, h⟩ := applyBoundaryConstraintsWithBounce_shape st tr
  rw [h]

@[simp] theorem bounce_mapBounds (st : SheepState) (tr : Transform) :
    (applyBoundaryConstraintsWithBounce st tr).1.mapBounds = st.mapBounds := by
  obtain ⟨d, tr2, hw, h⟩ := applyBoundaryConstraintsWithBounce_shape st tr
  rw [h]

@[simp] theorem bounce_isFleeing (st : SheepState) (tr : Transform) :
    (applyBoundaryConstraintsWithBounce st tr).1.isFleeing = st.isFleeing := by
  obtain ⟨d, tr2, hw, h⟩ := applyBoundaryConstraintsWithBounce_shape st tr
  rw [h]

@[simp] theorem bounce_isPanic (st : SheepState) (tr : Transform) :
    (applyBoundaryConstraintsWithBounce st tr).1.isPanic = st.isPanic := by
  obtain ⟨d, tr2, hw, h⟩ := applyBoundaryConstraintsWithBounce_shape st tr
  rw [h]

@[simp] theorem bounce_fleeCooldown (st : SheepState) (tr : Transform) :
    (applyBoundaryConstraintsWithBounce st tr).1.fleeCooldown =
      st.fleeCooldown := by
  obtain ⟨d, tr2, hw, h⟩ := applyBoundaryConstraintsWithBounce_shape st tr
  rw [h]

@[simp] theorem bounce_fleeCooldownDuration (st : SheepState) (tr : Transform) :
    (applyBoundaryConstraintsWithBounce st tr).1.fleeCooldownDuration =
      st.fleeCooldownDuration := by
  obtain ⟨d, tr2, hw, h⟩ := applyBoundaryConstraintsWithBounce_shape st tr
  rw [h]

@[simp] theorem clamp_isOnSeno (st : SheepState) (tr : Transform) :
    (applyBoundaryConstraints st tr).1.isOnSeno = st.isOnSeno := by
  obtain ⟨d, tr2, h⟩ := applyBoundaryConstraints_shape st tr
  rw [h]

@[simp] theorem clamp_mapBounds (st : SheepState) (tr : Transform) :
    (applyBoundaryConstraints st tr).1.mapBounds = st.mapBounds := by
  obtain ⟨d, tr2, h⟩ := applyBoundaryConstraints_shape st tr
  rw [h]

@[simp] theorem clamp_isFleeing (st : SheepState) (tr : Transform) :
    (applyBoundaryConstraints st tr).1.isFleeing = st.isFleeing := by
  obtain ⟨d, tr2, h⟩ := applyBoundaryConstraints_shape st tr
  rw [h]

@[simp] theorem clamp_fleeCooldown (st : SheepState) (tr : Transform) :
    (applyBoundaryConstraints st tr).1.fleeCooldown = st.fleeCooldown := by
  obtain ⟨d, tr2, h⟩ := applyBoundaryConstraints_shape st tr
  rw [h]

@[simp] theorem clamp_fleeCooldownDuration (st : SheepState) (tr : Transform) :
    (applyBoundaryConstraints st tr).1.fleeCooldownDuration =
      st.fleeCooldownDuration := by
  obtain ⟨d, tr2, h⟩ := applyBoundaryConstraints_shape st tr
  rw [h]

theorem cooldownStep_shape (st : SheepState) (dt : ℚ) :
    ∃ c, cooldownStep st dt = { st with fleeCooldown := c } := by
  simp only [cooldownStep]
  split_ifs <;> exact ⟨_, rfl⟩

@[simp] theorem cooldownStep_isOnSeno (st : SheepState) (dt : ℚ) :
    (cooldownStep st dt).isOnSeno = st.isOnSeno := by
  obtain ⟨c, h⟩ := cooldownStep_shape st dt
  rw [h]

@[simp] theorem cooldownStep_mapBounds (st : SheepState) (dt : ℚ) :
    (cooldownStep st dt).mapBounds = st.mapBounds := by
  obtain ⟨c, h⟩ := cooldownStep_shape st dt
  rw [h]

@[simp] theorem cooldownStep_isFleeing (st : SheepState) (dt : ℚ) :
    (cooldownStep st dt).isFleeing = st.isFleeing := by
  obtain ⟨c, h⟩ := cooldownStep_shape st dt
  rw [h]

@[simp] theorem cooldownStep_isPanic (st : SheepState) (dt : ℚ) :
    (cooldownStep st dt).isPanic = st.isPanic := by
  obtain ⟨c, h⟩ := cooldownStep_shape st dt
  rw [h]

@[simp] theorem cooldownStep_isPaused (st : SheepState) (dt : ℚ) :
    (cooldownStep st dt).isPaused = st.isPaused := by
  obtain ⟨c, h⟩ := cooldownStep_shape st dt
  rw [h]

@[simp] theorem cooldownStep_isLaunched (st : SheepState) (dt : ℚ) :
    (cooldownStep st dt).isLaunched = st.isLaunched := by
  obtain ⟨c, h⟩ := cooldownStep_shape st dt
  rw [h]

@[simp] theorem cooldownStep_fleeRadius (st : SheepState) (dt : ℚ) :
    (cooldownStep st dt).fleeRadius = st.fleeRadius := by
  obtain ⟨c, h⟩ := cooldownStep_shape st dt
  rw [h]

@[simp] theorem cooldownStep_safeRadius (st : SheepState) (dt : ℚ) :
    (cooldownStep st dt).safeRadius = st.safeRadius := by
  obtain ⟨c, h⟩ := cooldownStep_shape st dt
  rw [h]

@[simp] theorem cooldownStep_fleeCooldownDuration (st : SheepState) (dt : ℚ) :
    (cooldownStep st dt).fleeCooldownDuration = st.fleeCooldownDuration := by
  obtain ⟨c, h⟩ := cooldownStep_shape st dt
  rw [h]

theorem panicStep_of_not_panic (st : SheepState) (tr : Transform) (dt : ℚ)
    (rng : List ℚ) (h : st.isPanic = false) :
    panicStep st tr dt rng = (st, tr, rng, false) := by
  simp only [panicStep, h]
  simp

theorem fleeMoveStep_of_not_fleeing (st : SheepState) (tr : Transform)
    (player : Option (Option Transform)) (dt : ℚ) (rng : List ℚ)
    (h : st.isFleeing = false) :
    fleeMoveStep st tr player dt rng = (st, tr, rng, false) := by
  simp only [fleeMoveStep, h]
  simp

theorem launchTick_shape (st : SheepState) (dt : ℚ) :
    ∃ a b c, launchTick st dt =
      { st with launchDuration := a, launchInvulnerable := b,
                launchVelocity := c } := by
  simp only [launchTick]
  split_ifs <;> exact ⟨_, _, _, rfl⟩

@[simp] theorem launchTick_isOnSeno (st : SheepState) (dt : ℚ) :
    (launchTick st dt).isOnSeno = st.isOnSeno := by
  obtain ⟨a, b, c, h⟩ := launchTick_shape st dt
  rw [h]

@[simp] theorem launchTick_mapBounds (st : SheepState) (dt : ℚ) :
    (launchTick st dt).mapBounds = st.mapBounds := by
  obtain ⟨a, b, c, h⟩ := launchTick_shape st dt
  rw [h]

@[simp] theorem launchTick_baseY (st : SheepState) (dt : ℚ) :
    (launchTick st dt).baseY = st.baseY := by
  obtain ⟨a, b, c, h⟩ := launchTick_shape st dt
  rw [h]

@[simp] theorem launchEnd_isOnSeno (st : SheepState) (tr : Transform)
    (rng : List ℚ) : (launchEnd st tr rng).1.isOnSeno = st.isOnSeno := by
  simp only [launchEnd]
  split_ifs <;> simp

@[simp] theorem launchEnd_mapBounds (st : SheepState) (tr : Transform)
    (rng : List ℚ) : (launchEnd st tr rng).1.mapBounds = st.mapBounds := by
  simp only [launchEnd]
  split_ifs <;> simp

@[simp] theorem panicDirTick_isOnSeno (st : SheepState) (tr : Transform)
    (rng : List ℚ) : (panicDirTick st tr rng).1.isOnSeno = st.isOnSeno := by
  simp only [panicDirTick]
  split_ifs <;> simp

@[simp] theorem panicDirTick_mapBounds (st : SheepState) (tr : Transform)
    (rng : List ℚ) : (panicDirTick st tr rng).1.mapBounds = st.mapBounds := by
  simp only [panicDirTick]
  split_ifs <;> simp

@[simp] theorem wanderDirTick_isOnSeno (st : SheepState) (tr : Transform)
    (dt : ℚ) (rng : List ℚ) :
    (wanderDirTick st tr dt rng).1.isOnSeno = st.isOnSeno := by
  simp only [wanderDirTick]
  split_ifs <;> simp

@[simp] theorem wanderDirTick_mapBounds (st : SheepState) (tr : Transform)
    (dt : ℚ) (rng : List ℚ) :
    (wanderDirTick st tr dt rng).1.mapBounds = st.mapBounds := by
  simp only [wanderDirTick]
  split_ifs <;> simp

@[simp] theorem wanderDirTick_isFleeing (st : SheepState) (tr : Transform)
    (dt : ℚ) (rng : List ℚ) :
    (wanderDirTick st tr dt rng).1.isFleeing = st.isFleeing := by
  simp only [wanderDirTick]
  split_ifs <;> simp

@[simp] theorem wanderDirTick_fleeCooldown (st : SheepState) (tr : Transform)
    (dt : ℚ) (rng : List ℚ) :
    (wanderDirTick st tr dt rng).1.fleeCooldown = st.fleeCooldown := by
  simp only [wanderDirTick]
  split_ifs <;> simp

@[simp] theorem wanderDirTick_fleeCooldownDuration (st : SheepState)
    (tr : Transform) (dt : ℚ) (rng : List ℚ) :
    (wanderDirTick st tr dt rng).1.fleeCooldownDuration =
      st.fleeCooldownDuration := by
  simp only [wanderDirTick]
  split_ifs <;> simp

theorem wanderDirTick_of_small (st : SheepState) (tr : Transform)
    (dt : ℚ) (rng : List ℚ)
    (h : ¬ st.timeSinceDirectionChange + dt ≥ st.directionChangeInterval) :
    wanderDirTick st tr dt rng =
      ({ st with timeSinceDirectionChange :=
          st.timeSinceDirectionChange + dt }, rng) := by
  simp only [wanderDirTick]
  rw [if_neg]
  exact h

theorem fleeStuckBranch_shape (st : SheepState) (px pz dp : ℚ) :
    ∃ fd c t, fleeStuckBranch st px pz dp =
      { st with fleeDirection := fd, fleeStuckCounter := c,
                fleeForceEscapeTimer := t } := by
  simp only [fleeStuckBranch]
  split_ifs <;> exact ⟨_, _, _, rfl⟩

theorem fleeBlendBranch_shape (st : SheepState) (px pz dp : ℚ) :
    ∃ fd, fleeBlendBranch st px pz dp =
      { st with fleeDirection := fd, fleeStuckCounter := 0,
                fleeForceEscapeTimer := 0 } := by
  simp only [fleeBlendBranch]
  split_ifs <;> exact ⟨_, rfl⟩

@[simp] theorem fleeStuckBranch_isOnSeno (st : SheepState) (px pz dp : ℚ) :
    (fleeStuckBranch st px pz dp).isOnSeno = st.isOnSeno := by
  obtain ⟨fd, c, t, h⟩ := fleeStuckBranch_shape st px pz dp
  rw [h]

@[simp] theorem fleeStuckBranch_mapBounds (st : SheepState) (px pz dp : ℚ) :
    (fleeStuckBranch st px pz dp).mapBounds = st.mapBounds := by
  obtain ⟨fd, c, t, h⟩ := fleeStuckBranch_shape st px pz dp
  rw [h]

@[simp] theorem fleeStuckBranch_isFleeing (st : SheepState) (px pz dp : ℚ) :
    (fleeStuckBranch st px pz dp).isFleeing = st.isFleeing := by
  obtain ⟨fd, c, t, h⟩ := fleeStuckBranch_shape st px pz dp
  rw [h]

@[simp] theorem fleeStuckBranch_fleeCooldown (st : SheepState) (px pz dp : ℚ) :
    (fleeStuckBranch st px pz dp).fleeCooldown = st.fleeCooldown := by
  obtain ⟨fd, c, t, h⟩ := fleeStuckBranch_shape st px pz dp
  rw [h]

@[simp] theorem fleeStuckBranch_fleeCooldownDuration (st : SheepState)
    (px pz dp : ℚ) :
    (fleeStuckBranch st px pz dp).fleeCooldownDuration =
      st.fleeCooldownDuration := by
  obtain ⟨fd, c, t, h⟩ := fleeStuckBranch_shape st px pz dp
  rw [h]

@[simp] theorem fleeBlendBranch_isOnSeno (st : SheepState) (px pz dp : ℚ) :
    (fleeBlendBranch st px pz dp).isOnSeno = st.isOnSeno := by
  obtain ⟨fd, h⟩ := fleeBlendBranch_shape st px pz dp
  rw [h]

@[simp] theorem fleeBlendBranch_mapBounds (st : SheepState) (px pz dp : ℚ) :
    (fleeBlendBranch st px pz dp).mapBounds = st.mapBounds := by
  obtain ⟨fd, h⟩ := fleeBlendBranch_shape st px pz dp
  rw [h]

@[simp] theorem fleeBlendBranch_isFleeing (st : SheepState) (px pz dp : ℚ) :
    (fleeBlendBranch st px pz dp).isFleeing = st.isFleeing := by
  obtain ⟨fd, h⟩ := fleeBlendBranch_shape st px pz dp
  rw [h]

@[simp] theorem fleeBlendBranch_fleeCooldown (st : SheepState) (px pz dp : ℚ) :
    (fleeBlendBranch st px pz dp).fleeCooldown = st.fleeCooldown := by
  obtain ⟨fd, h⟩ := fleeBlendBranch_shape st px pz dp
  rw [h]

@[simp] theorem fleeBlendBranch_fleeCooldownDuration (st : SheepState)
    (px pz dp : ℚ) :
    (fleeBlendBranch st px pz dp).fleeCooldownDuration =
      st.fleeCooldownDuration := by
  obtain ⟨fd, h⟩ := fleeBlendBranch_shape st px pz dp
  rw [h]

@[simp] theorem fleeRefresh_isOnSeno (st : SheepState) (tr : Transform)
    (px pz dp : ℚ) :
    (fleeRefresh st tr px pz dp).isOnSeno = st.isOnSeno := by
  simp only [fleeRefresh]
  split_ifs <;> simp

@[simp] theorem fleeRefresh_mapBounds (st : SheepState) (tr : Transform)
    (px pz dp : ℚ) :
    (fleeRefresh st tr px pz dp).mapBounds = st.mapBounds := by
  simp only [fleeRefresh]
  split_ifs <;> simp

@[simp] theorem fleeRefresh_isFleeing (st : SheepState) (tr : Transform)
    (px pz dp : ℚ) :
    (fleeRefresh st tr px pz dp).isFleeing = st.isFleeing := by
  simp only [fleeRefresh]
  split_ifs <;> simp

@[simp] theorem fleeRefresh_fleeCooldown (st : SheepState) (tr : Transform)
    (px pz dp : ℚ) :
    (fleeRefresh st tr px pz dp).fleeCooldown = st.fleeCooldown := by
  simp only [fleeRefresh]
  split_ifs <;> simp

@[simp] theorem fleeRefresh_fleeCooldownDuration (st : SheepState)
    (tr : Transform) (px pz dp : ℚ) :
    (fleeRefresh st tr px pz dp).fleeCooldownDuration =
      st.fleeCooldownDuration := by
  simp only [fleeRefresh]
  split_ifs <;> simp

theorem fleeMove_ret (st : SheepState) (tr : Transform) (dt : ℚ)
    (rng : List ℚ) (px pz dp : ℚ) :
    (fleeMove st tr dt rng px pz dp).2.2.2 = true := rfl

@[simp] theorem fleeMove_isOnSeno (st : SheepState) (tr : Transform) (dt : ℚ)
    (rng : List ℚ) (px pz dp : ℚ) :
    (fleeMove st tr dt rng px pz dp).1.isOnSeno = st.isOnSeno := by
  simp only [fleeMove]
  split_ifs <;> simp

@[simp] theorem fleeMove_mapBounds (st : SheepState) (tr : Transform) (dt : ℚ)
    (rng : List ℚ) (px pz dp : ℚ) :
    (fleeMove st tr dt rng px pz dp).1.mapBounds = st.mapBounds := by
  simp only [fleeMove]
  split_ifs <;> simp

@[simp] theorem fleeMove_isFleeing (st : SheepState) (tr : Transform) (dt : ℚ)
    (rng : List ℚ) (px pz dp : ℚ) :
    (fleeMove st tr dt rng px pz dp).1.isFleeing = st.isFleeing := by
  simp only [fleeMove]
  split_ifs <;> simp

@[simp] theorem fleeMove_fleeCooldown (st : SheepState) (tr : Transform)
    (dt : ℚ) (rng : List ℚ) (px pz dp : ℚ) :
    (fleeMove st tr dt rng px pz dp).1.fleeCooldown = st.fleeCooldown := by
  simp only [fleeMove]
  split_ifs <;> simp

@[simp] theorem fleeMove_fleeCooldownDuration (st : SheepState)
    (tr : Transform) (dt : ℚ) (rng : List ℚ) (px pz dp : ℚ) :
    (fleeMove st tr dt rng px pz dp).1.fleeCooldownDuration =
      st.fleeCooldownDuration := by
  simp only [fleeMove]
  split_ifs <;> simp

@[simp] theorem launchStep_isOnSeno (st : SheepState) (tr : Transform)
    (dt : ℚ) (rng : List ℚ) :
    (launchStep st tr dt rng).1.isOnSeno = st.isOnSeno := by
  simp only [launchStep]
  repeat' split
  all_goals simp

@[simp] theorem panicStep_isOnSeno (st : SheepState) (tr : Transform)
    (dt : ℚ) (rng : List ℚ) :
    (panicStep st tr dt rng).1.isOnSeno = st.isOnSeno := by
  simp only [panicStep]
  repeat' split
  all_goals simp

@[simp] theorem panicStep_mapBounds (st : SheepState) (tr : Transform)
    (dt : ℚ) (rng : List ℚ) :
    (panicStep st tr dt rng).1.mapBounds = st.mapBounds := by
  simp only [panicStep]
  repeat' split
  all_goals simp

@[simp] theorem fleeCheck_isOnSeno (st : SheepState) (tr : Transform)
    (player : Option (Option Transform)) (rng : List ℚ) :
    (fleeCheck st tr player rng).1.isOnSeno = st.isOnSeno := by
  simp only [fleeCheck]
  repeat' split
  all_goals simp

@[simp] theorem fleeCheck_mapBounds (st : SheepState) (tr : Transform)
    (player : Option (Option Transform)) (rng : List ℚ) :
    (fleeCheck st tr player rng).1.mapBounds = st.mapBounds := by
  simp only [fleeCheck]
  repeat' split
  all_goals simp

@[simp] theorem wanderStep_isOnSeno (st : SheepState) (tr : Transform)
    (dt : ℚ) (rng : List ℚ) :
    (wanderStep st tr dt rng).1.isOnSeno = st.isOnSeno := by
  simp only [wanderStep]
  repeat' split
  all_goals simp

@[simp] theorem wanderStep_isFleeing (st : SheepState) (tr : Transform)
    (dt : ℚ) (rng : List ℚ) :
    (wanderStep st tr dt rng).1.isFleeing = st.isFleeing := by
  simp only [wanderStep]
  repeat' split
  all_goals simp

@[simp] theorem wanderStep_fleeCooldown (st : SheepState) (tr : Transform)
    (dt : ℚ) (rng : List ℚ) :
    (wanderStep st tr dt rng).1.fleeCooldown = st.fleeCooldown := by
  simp only [wanderStep]
  repeat' split
  all_goals simp

@[simp] theorem wanderStep_fleeCooldownDuration (st : SheepState)
    (tr : Transform) (dt : ℚ) (rng : List ℚ) :
    (wanderStep st tr dt rng).1.fleeCooldownDuration =
      st.fleeCooldownDuration := by
  simp only [wanderStep]
  repeat' split
  all_goals simp

@[simp] theorem fleeMoveStep_isOnSeno (st : SheepState) (tr : Transform)
    (player : Option (Option Transform)) (dt : ℚ) (rng : List ℚ) :
    (fleeMoveStep st tr player dt rng).1.isOnSeno = st.isOnSeno := by
  simp only [fleeMoveStep]
  repeat' split
  all_goals simp

@[simp] theorem fleeMoveStep_mapBounds (st : SheepState) (tr : Transform)
    (player : Option (Option Transform)) (dt : ℚ) (rng : List ℚ) :
    (fleeMoveStep st tr player dt rng).1.mapBounds = st.mapBounds := by
  simp only [fleeMoveStep]
  repeat' split
  all_goals simp

theorem panicStep_tr_of_ret_false (st : SheepState) (tr : Transform)
    (dt : ℚ) (rng : List ℚ)
    (h : (panicStep st tr dt rng).2.2.2 = false) :
    (panicStep st tr dt rng).2.1 = tr := by
  simp only [panicStep] at h ⊢
  repeat' split at h
  all_goals simp_all

theorem fleeMoveStep_tr_of_ret_false (st : SheepState) (tr : Transform)
    (player : Option (Option Transform)) (dt : ℚ) (rng : List ℚ)
    (h : (fleeMoveStep st tr player dt rng).2.2.2 = false) :
    (fleeMoveStep st tr player dt rng).2.1 = tr := by
  simp only [fleeMoveStep] at h ⊢
  repeat' split at h
  all_goals simp_all [fleeMove_ret]

set_option maxHeartbeats 1000000

theorem clamp_translation_inB (st : SheepState) (tr : Transform)
    (hbx : st.mapBounds.min.x ≤ st.mapBounds.max.x)
    (hbz : st.mapBounds.min.z ≤ st.mapBounds.max.z) :
    inBoundsXZ st.mapBounds ((applyBoundaryConstraints st tr).2.translation) := by
  simp only [applyBoundaryConstraints]
  split_ifs <;> dsimp <;> simp only [inBoundsXZ] <;>
    exact ⟨by linarith, by linarith, by linarith, by linarith⟩

theorem bounce_translation_inB (st : SheepState) (tr : Transform)
    (hbx : st.mapBounds.min.x ≤ st.mapBounds.max.x)
    (hbz : st.mapBounds.min.z ≤ st.mapBounds.max.z) :
    inBoundsXZ st.mapBounds
      ((applyBoundaryConstraintsWithBounce st tr).2.1.translation) := by
  simp only [applyBoundaryConstraintsWithBounce]
  split_ifs <;> dsimp <;> simp only [inBoundsXZ] <;>
    exact ⟨by linarith, by linarith, by linarith, by linarith⟩

theorem clamp_translation_inB' (st : SheepState) (tr : Transform)
    (mb : Bounds2) (hmb : st.mapBounds = mb)
    (hbx : mb.min.x ≤ mb.max.x) (hbz : mb.min.z ≤ mb.max.z) :
    inBoundsXZ mb ((applyBoundaryConstraints st tr).2.translation) := by
  subst hmb
  exact clamp_translation_inB st tr hbx hbz

theorem bounce_translation_inB' (st : SheepState) (tr : Transform)
    (mb : Bounds2) (hmb : st.mapBounds = mb)
    (hbx : mb.min.x ≤ mb.max.x) (hbz : mb.min.z ≤ mb.max.z) :
    inBoundsXZ mb
      ((applyBoundaryConstraintsWithBounce st tr).2.1.translation) := by
  subst hmb
  exact bounce_translation_inB st tr hbx hbz

theorem launchStep_translation_inB (st : SheepState) (tr : Transform)
    (dt : ℚ) (rng : List ℚ) (mb : Bounds2) (hmb : st.mapBounds = mb)
    (hbx : mb.min.x ≤ mb.max.x) (hbz : mb.min.z ≤ mb.max.z)
    (hin : inBoundsXZ mb tr.translation) :
    inBoundsXZ mb ((launchStep st tr dt rng).2.1.translation) := by
  subst hmb
  simp only [inBoundsXZ] at hin
  simp only [launchStep]
  split
  · simp only [inBoundsXZ]
    exact ⟨hin.1, hin.2.1, hin.2.2.1, hin.2.2.2⟩
  · next hcond =>
    push_neg at hcond
    simp only [launchTick_mapBounds] at hcond
    split
    · split
      · simp only [inBoundsXZ]
        exact ⟨hcond.1, hcond.2.1, hcond.2.2.1, hcond.2.2.2⟩
      · simp only [inBoundsXZ]
        exact ⟨hcond.1, hcond.2.1, hcond.2.2.1, hcond.2.2.2⟩
    · simp only [inBoundsXZ]
      exact ⟨hcond.1, hcond.2.1, hcond.2.2.1, hcond.2.2.2⟩

theorem fleeMove_translation_inB (st : SheepState) (tr : Transform)
    (dt : ℚ) (rng : List ℚ) (px pz dp : ℚ) (mb : Bounds2)
    (hmb : st.mapBounds = mb)
    (hbx : mb.min.x ≤ mb.max.x) (hbz : mb.min.z ≤ mb.max.z) :
    inBoundsXZ mb ((fleeMove st tr dt rng px pz dp).2.1.translation) := by
  subst hmb
  simp only [fleeMove]
  apply bounce_translation_inB'
  · split_ifs <;> simp
  · exact hbx
  · exact hbz

theorem panicStep_translation_inB (st : SheepState) (tr : Transform)
    (dt : ℚ) (rng : List ℚ) (mb : Bounds2) (hmb : st.mapBounds = mb)
    (hbx : mb.min.x ≤ mb.max.x) (hbz : mb.min.z ≤ mb.max.z)
    (hin : inBoundsXZ mb tr.translation) :
    inBoundsXZ mb ((panicStep st tr dt rng).2.1.translation) := by
  subst hmb
  simp only [inBoundsXZ] at hin
  simp only [panicStep]
  split
  · split
    · simp only [inBoundsXZ]
      exact ⟨hin.1, hin.2.1, hin.2.2.1, hin.2.2.2⟩
    · apply bounce_translation_inB'
      · simp
      · exact hbx
      · exact hbz
  · simp only [inBoundsXZ]
    exact ⟨hin.1, hin.2.1, hin.2.2.1, hin.2.2.2⟩

theorem fleeMoveStep_translation_inB (st : SheepState) (tr : Transform)
    (player : Option (Option Transform)) (dt : ℚ) (rng : List ℚ)
    (mb : Bounds2) (hmb : st.mapBounds = mb)
    (hbx : mb.min.x ≤ mb.max.x) (hbz : mb.min.z ≤ mb.max.z)
    (hin : inBoundsXZ mb tr.translation) :
    inBoundsXZ mb ((fleeMoveStep st tr player dt rng).2.1.translation) := by
  subst hmb
  simp only [inBoundsXZ] at hin
  simp only [fleeMoveStep]
  split
  · split
    · split
      · simp only [inBoundsXZ]
        exact ⟨hin.1, hin.2.1, hin.2.2.1, hin.2.2.2⟩
      · apply fleeMove_translation_inB <;> first | rfl | exact hbx | exact hbz
    · simp only [inBoundsXZ]
      exact ⟨hin.1, hin.2.1, hin.2.2.1, hin.2.2.2⟩
  · simp only [inBoundsXZ]
    exact ⟨hin.1, hin.2.1, hin.2.2.1, hin.2.2.2⟩

theorem wanderStep_translation_inB (st : SheepState) (tr : Transform)
    (dt : ℚ) (rng : List ℚ) (mb : Bounds2) (hmb : st.mapBounds = mb)
    (hbx : mb.min.x ≤ mb.max.x) (hbz : mb.min.z ≤ mb.max.z)
    (hin : inBoundsXZ mb tr.translation) :
    inBoundsXZ mb ((wanderStep st tr dt rng).2.1.translation) := by
  subst hmb
  simp only [inBoundsXZ] at hin
  simp only [wanderStep]
  split
  · simp only [inBoundsXZ]
    exact ⟨hin.1, hin.2.1, hin.2.2.1, hin.2.2.2⟩
  · split
    · apply clamp_translation_inB'
      · simp
      · exact hbx
      · exact hbz
    · simp only [inBoundsXZ]
      exact ⟨hin.1, hin.2.1, hin.2.2.1, hin.2.2.2⟩

theorem update_isOnSeno (st : SheepState) (tr? : Option Transform)
    (player : Option (Option Transform)) (dt : ℚ) (rng : List ℚ) :
    (update st tr? player dt rng).1.isOnSeno = st.isOnSeno := by
  simp only [update]
  repeat' split
  all_goals simp

theorem launch_isOnSeno (st : SheepState) (direction : Vec3) (speed : ℚ) :
    (launch st direction speed).isOnSeno = st.isOnSeno := rfl

theorem update_translation_inB (st : SheepState) (tr : Transform)
    (player : Option (Option Transform)) (dt : ℚ) (rng : List ℚ)
    (hbx : st.mapBounds.min.x ≤ st.mapBounds.max.x)
    (hbz : st.mapBounds.min.z ≤ st.mapBounds.max.z)
    (hin : inBoundsXZ st.mapBounds tr.translation) :
    ∀ tr2, (update st (some tr) player dt rng).2.1 = some tr2 →
      inBoundsXZ st.mapBounds tr2.translation := by
  intro tr2 h2
  simp only [update] at h2
  split at h2
  · exact Option.some.inj h2 ▸ hin
  · split at h2 <;>
      (split at h2
       · replace h2 := Option.some.inj h2
         subst h2
         exact launchStep_translation_inB _ tr dt rng st.mapBounds rfl hbx hbz hin
       · split at h2
         · replace h2 := Option.some.inj h2
           subst h2
           exact panicStep_translation_inB _ tr dt rng st.mapBounds rfl hbx hbz hin
         · split at h2
           · replace h2 := Option.some.inj h2
             subst h2
             apply fleeMoveStep_translation_inB _ _ player dt _ st.mapBounds
               (by simp) hbx hbz
             exact panicStep_translation_inB _ tr dt rng st.mapBounds rfl hbx
               hbz hin
           · replace h2 := Option.some.inj h2
             subst h2
             apply wanderStep_translation_inB _ _ dt _ st.mapBounds
               (by simp) hbx hbz
             apply fleeMoveStep_translation_inB _ _ player dt _ st.mapBounds
               (by simp) hbx hbz
             exact panicStep_translation_inB _ tr dt rng st.mapBounds rfl hbx
               hbz hin)

end SheepController

namespace Physics

theorem resolveCollision_sheep (a b : Entity) :
    (resolveCollision a b).2.1.sheep = a.sheep := by
  simp only [resolveCollision]
  repeat' split
  all_goals rfl

theorem setTranslation_sheep (e : Entity) (p : Vec3) :
    (setTranslation e p).sheep = e.sheep := by
  simp only [setTranslation]
  repeat' split
  all_goals rfl

theorem sweptResolve_sheep (o : Entity) (pb cp : Vec3) (s : ℕ) :
    ∀ (l : List ℕ) (e : Entity), (sweptResolve o pb cp s e l).2.sheep = e.sheep := by
  intro l
  induction l with
  | nil => intro e; rfl
  | cons a as ih =>
    intro e
    simp only [sweptResolve]
    split
    · rw [resolveCollision_sheep, setTranslation_sheep]
    · rw [ih, setTranslation_sheep, resolveCollision_sheep, setTranslation_sheep]

theorem physStaticResolve_events (ps : PhysState) (i : ℕ) (e o : Entity)
    (L : Bool) : (physStaticResolve ps i e o L).events = ps.events := by
  simp only [physStaticResolve]
  repeat' split
  all_goals rfl

theorem capturedAt_set_of_ne {sc : List Entity} {k i : ℕ} (x : Entity)
    (hki : k ≠ i) (hc : capturedAt sc k) : capturedAt (sc.set i x) k := by
  obtain ⟨ek, hk, hcap⟩ := hc
  refine ⟨ek, ?_, hcap⟩
  rw [List.get?_set_ne]
  · exact hk
  · exact fun h => hki h.symm

theorem capturedAt_set_self {sc : List Entity} {i : ℕ} (x : Entity)
    (hlen : i < sc.length) (hx : entCap x) : capturedAt (sc.set i x) i := by
  refine ⟨x, ?_, hx⟩
  rw [List.get?_set_eq_of_lt]
  exact hlen

theorem physStaticResolve_capturedAt (ps : PhysState) (i : ℕ) (e o : Entity)
    (L : Bool) (hi : ps.scene.get? i = some e) (k : ℕ)
    (hc : capturedAt ps.scene k) :
    capturedAt (physStaticResolve ps i e o L).scene k := by
  have hlen : i < ps.scene.length := by
    rcases List.get?_eq_some.mp hi with ⟨h, _⟩
    exact h
  by_cases hki : k = i
  · subst hki
    obtain ⟨ek, hk, hcap⟩ := hc
    have hek : ek = e := by rw [hk] at hi; exact Option.some.inj hi
    subst hek
    simp only [physStaticResolve]
    repeat' split
    all_goals first
      | (exfalso; simp_all [vec3dist, sqrtQ]; linarith)
      | (apply capturedAt_set_self
         · simp [hlen]
         · simp_all [entCap, resolveCollision_sheep])
  · simp only [physStaticResolve]
    repeat' split
    all_goals first
      | (exfalso; simp_all [vec3dist, sqrtQ]; linarith)
      | exact capturedAt_set_of_ne _ hki (capturedAt_set_of_ne _ hki hc)
      | exact capturedAt_set_of_ne _ hki hc

theorem physStatic_capturedAt (ps : PhysState) (i : ℕ) (e o : Entity)
    (L : Bool) (hi : ps.scene.get? i = some e) (k : ℕ)
    (hc : capturedAt ps.scene k) :
    capturedAt (physStatic ps i e o L).scene k := by
  have hlen : i < ps.scene.length := by
    rcases List.get?_eq_some.mp hi with ⟨h, _⟩
    exact h
  simp only [physStatic]
  repeat' split
  all_goals first
    | exact hc
    | exact physStaticResolve_capturedAt _ _ _ _ _ hi _ hc
    | (by_cases hki : k = i
       · subst hki
         exact capturedAt_set_self _ hlen ⟨_, rfl, rfl⟩
       · exact capturedAt_set_of_ne _ hki hc)

theorem physStatic_events_of_cap (ps : PhysState) (i : ℕ) (e o : Entity)
    (L : Bool) (stc : SheepState) (hs : e.sheep = some stc)
    (hon : stc.isOnSeno = true) :
    (physStatic ps i e o L).events = ps.events := by
  simp only [physStatic]
  repeat' split
  all_goals first
    | rfl
    | exact physStaticResolve_events _ _ _ _ _
    | simp_all [captureEvents]

theorem physPair_capturedAt (ps : PhysState) (i j : ℕ) (L I : Bool) (k : ℕ)
    (hc : capturedAt ps.scene k) :
    capturedAt (physPair ps i j L I).scene k := by
  rcases hgi : ps.scene.get? i with _ | e
  · simp only [physPair, hgi]
    exact hc
  rcases hgj : ps.scene.get? j with _ | o
  · simp only [physPair, hgi, hgj]
    exact hc
  simp only [physPair, hgi, hgj]
  have hlen : i < ps.scene.length := by
    rcases List.get?_eq_some.mp hgi with ⟨h, _⟩
    exact h
  repeat' split
  all_goals first
    | exact hc
    | exact physStatic_capturedAt _ _ _ _ _ hgi _ hc
    | (by_cases hki : k = i
       · subst hki
         obtain ⟨ek, hk, hcap⟩ := hc
         have hek : ek = e := by rw [hk] at hgi; exact Option.some.inj hgi
         subst hek
         apply capturedAt_set_self _ hlen
         obtain ⟨stc0, hs0, hon0⟩ := hcap
         exact ⟨stc0, by rw [resolveCollision_sheep]; exact hs0, hon0⟩
       · exact capturedAt_set_of_ne _ hki hc)

theorem physPair_events_of_cap (ps : PhysState) (i j : ℕ) (L I : Bool)
    (e : Entity) (stc : SheepState) (hi : ps.scene.get? i = some e)
    (hs : e.sheep = some stc) (hon : stc.isOnSeno = true) :
    (physPair ps i j L I).events = ps.events := by
  rcases hgj : ps.scene.get? j with _ | o
  · simp only [physPair, hi, hgj]
  simp only [physPair, hi, hgj]
  repeat' split
  all_goals first
    | rfl
    | exact physStaticResolve_events _ _ _ _ _
    | exact physStatic_events_of_cap _ _ _ _ _ _ hs hon

theorem foldlPreserve {α β : Type} {P : α → Prop} (f : α → β → α)
    (hf : ∀ a b, P a → P (f a b)) :
    ∀ (l : List β) (a : α), P a → P (l.foldl f a) := by
  intro l
  induction l with
  | nil => exact fun a ha => ha
  | cons b bs ih => exact fun a ha => ih _ (hf _ _ ha)

theorem physRow_capturedAt (ps : PhysState) (i : ℕ) (k : ℕ)
    (hc : capturedAt ps.scene k) :
    capturedAt (physRow ps i).scene k := by
  rcases hgi : ps.scene.get? i with _ | e
  · simp only [physRow, hgi]
    exact hc
  simp only [physRow, hgi]
  split
  · exact foldlPreserve _ (fun a b ha => physPair_capturedAt a i b _ _ k ha) _ ps hc
  · exact hc

theorem update_capturedAt (t dt : ℚ) (ps : PhysState) (k : ℕ)
    (hc : capturedAt ps.scene k) :
    capturedAt (update t dt ps).scene k := by
  simp only [update]
  exact foldlPreserve _ (fun a b ha => physRow_capturedAt a b k ha) _ ps hc


theorem physPair_capture_eq (ps : PhysState) (i j : ℕ) (e o : Entity)
    (stc : SheepState) (L I : Bool) (mn mx : Vec3)
    (hi : ps.scene.get? i = some e) (hj : ps.scene.get? j = some o)
    (hij : i ≠ j)
    (hsheep : e.sheep = some stc)
    (hoA : o.aabb = some ⟨some mn, some mx⟩)
    (hoCtrl : o.sheep = none)
    (hoStatic : o.isStatic = true)
    (hoSeno : o.isSeno = true)
    (hx : (getTransformedAABB e).min.x ≤ (getTransformedAABB o).max.x ∧
          (getTransformedAABB e).max.x ≥ (getTransformedAABB o).min.x)
    (hz : (getTransformedAABB e).min.z ≤ (getTransformedAABB o).max.z ∧
          (getTransformedAABB e).max.z ≥ (getTransformedAABB o).min.z)
    (hy : (getTransformedAABB e).min.y ≤ (getTransformedAABB o).max.y + 1) :
    physPair ps i j L I =
      { ps with
        scene := ps.scene.set i { e with sheep := some { stc with
          isOnSeno := true,
          senoBounds := some ⟨⟨(getTransformedAABB o).min.x,
                               (getTransformedAABB o).min.z⟩,
                              ⟨(getTransformedAABB o).max.x,
                               (getTransformedAABB o).max.z⟩⟩,
          isLaunched := false, isPanic := false, isFleeing := false,
          launchVelocity := ⟨0, 0, 0⟩ } },
        events := ps.events ++ captureEvents stc.isOnSeno i } := by
  simp only [physPair, hi, hj, if_neg hij, hoA, hoCtrl, hoStatic]
  simp only [physStatic, hoA, hoSeno, hsheep]
  simp only [Option.isSome_some, if_true, Option.map_none, Option.getD_none,
    Option.isNone_none, Bool.false_eq_true, if_false]
  rw [if_neg (by simp)]
  rw [if_neg (by simp)]
  rw [if_pos (by simp)]
  rw [if_pos ⟨hx, hz, hy⟩]

end Physics

/-- The 2D distance expression of the flee logic, folded back to
`playerDistance2D`. -/
theorem playerDistance2D_eq (tr ptr : Transform) :
    sqrtQ ((ptr.translation.x - tr.translation.x) *
        (ptr.translation.x - tr.translation.x) +
      (ptr.translation.z - tr.translation.z) *
        (ptr.translation.z - tr.translation.z)) = playerDistance2D tr ptr := rfl

namespace SheepController

/-- After the dt-guard, `update` on a present transform is `updateBody`
applied to the state with `baseY` filled in. -/
theorem update_eq_body (st : SheepState) (tr : Transform)
    (player : Option (Option Transform)) (dt : ℚ) (rng : List ℚ)
    (hdt : ¬(dt ≤ 0 ∨ dt > 1/10)) :
    update st (some tr) player dt rng =
      updateBody
        (if st.baseY.isNone then { st with baseY := some tr.translation.y }
         else st) tr player dt rng := by
  simp only [update, updateBody, if_neg hdt]

/-- The flee check on a non-fleeing, non-panicking state with the player
inside `fleeRadius` and the cooldown expired enters the flee state. -/
theorem fleeCheck_entry (st : SheepState) (tr ptr : Transform)
    (rng : List ℚ) (hP : st.isPanic = false) (hnf : st.isFleeing = false)
    (hdist : playerDistance2D tr ptr < st.fleeRadius)
    (hcool : st.fleeCooldown ≤ 0) :
    ∃ stF, fleeCheck st tr (some (some ptr)) rng = (stF, rng) ∧
      stF.isFleeing = true ∧ stF.safeRadius = st.safeRadius := by
  simp only [fleeCheck, hP, Bool.false_eq_true, if_false]
  simp only [playerDistance2D_eq]
  rw [if_pos ⟨hdist, hcool⟩, if_neg (by simp [hnf])]
  exact ⟨_, rfl, rfl, rfl⟩

/-- Case analysis of the flee check on an already-fleeing state: either it
leaves the state unchanged, or the player is beyond `safeRadius` and it
exits the flee state through `pickRandomDirection` on the state with the
cooldown armed. -/
theorem fleeCheck_of_fleeing (st : SheepState) (tr ptr : Transform)
    (rng : List ℚ) (hP : st.isPanic = false) (hf : st.isFleeing = true) :
    fleeCheck st tr (some (some ptr)) rng = (st, rng) ∨
    (fleeCheck st tr (some (some ptr)) rng =
        pickRandomDirection
          { st with isFleeing := false,
                    fleeCooldown := st.fleeCooldownDuration } (some tr) rng ∧
      playerDistance2D tr ptr > st.safeRadius) := by
  simp only [fleeCheck, hP, Bool.false_eq_true, if_false]
  simp only [playerDistance2D_eq]
  by_cases h1 : playerDistance2D tr ptr < st.fleeRadius ∧ st.fleeCooldown ≤ 0
  · rw [if_pos h1, if_pos hf]
    exact Or.inl rfl
  · rw [if_neg h1]
    by_cases h2 : playerDistance2D tr ptr > st.safeRadius
    · rw [if_pos ⟨h2, hf⟩]
      exact Or.inr ⟨rfl, h2⟩
    · rw [if_neg (fun hand => h2 hand.1)]
      exact Or.inl rfl

/-- A fleeing agent with the player not yet beyond `safeRadius` runs
`fleeMove`: the step reports `true` and the flag stays set. -/
theorem fleeMoveStep_fleeing_near (st : SheepState) (tr ptr : Transform)
    (dt : ℚ) (rng : List ℚ) (hf : st.isFleeing = true)
    (hnear : ¬ playerDistance2D tr ptr > st.safeRadius) :
    (fleeMoveStep st tr (some (some ptr)) dt rng).2.2.2 = true ∧
    (fleeMoveStep st tr (some (some ptr)) dt rng).1.isFleeing = true := by
  simp only [fleeMoveStep, Option.isSome_some]
  rw [if_pos ⟨hf, trivial⟩]
  simp only [playerDistance2D_eq]
  rw [if_neg hnear]
  exact ⟨fleeMove_ret _ _ _ _ _ _ _, by simp [hf]⟩

/-- A fleeing agent with the player beyond `safeRadius` leaves the flee
state inside the movement step, arming the cooldown. -/
theorem fleeMoveStep_fleeing_far (st : SheepState) (tr ptr : Transform)
    (dt : ℚ) (rng : List ℚ) (hf : st.isFleeing = true)
    (hfar : playerDistance2D tr ptr > st.safeRadius) :
    fleeMoveStep st tr (some (some ptr)) dt rng =
      ((pickRandomDirection
          { st with isFleeing := false,
                    fleeCooldown := st.fleeCooldownDuration } (some tr) rng).1,
       tr,
       (pickRandomDirection
          { st with isFleeing := false,
                    fleeCooldown := st.fleeCooldownDuration } (some tr) rng).2,
       false) := by
  simp only [fleeMoveStep, Option.isSome_some]
  rw [if_pos ⟨hf, trivial⟩]
  simp only [playerDistance2D_eq]
  rw [if_pos hfar]

/-- The ticked cooldown depends only on the incoming `fleeCooldown`. -/
theorem cooldownStep_fleeCooldown_eq (st st2 : SheepState) (dt : ℚ)
    (hfc : st.fleeCooldown = st2.fleeCooldown) :
    (cooldownStep st dt).fleeCooldown = (cooldownStep st2 dt).fleeCooldown := by
  simp only [cooldownStep]
  split_ifs <;> simp_all

/-- Flee-state hysteresis of the post-guard update body: entry fires when
the player is inside `fleeRadius` with an expired cooldown, and an exit
during the body happens only beyond `safeRadius`, arming the positive
cooldown. -/
theorem updateBody_flee (st2 : SheepState) (tr ptr : Transform) (dt : ℚ)
    (rng : List ℚ)
    (hL : st2.isLaunched = false) (hP : st2.isPanic = false)
    (hrs : st2.fleeRadius ≤ st2.safeRadius)
    (hcd : 0 < st2.fleeCooldownDuration) :
    (st2.isFleeing = false →
      playerDistance2D tr ptr < st2.fleeRadius →
      (cooldownStep st2 dt).fleeCooldown ≤ 0 →
      (updateBody st2 tr (some (some ptr)) dt rng).1.isFleeing = true) ∧
    (st2.isFleeing = true →
      (updateBody st2 tr (some (some ptr)) dt rng).1.isFleeing = false →
      playerDistance2D tr ptr > st2.safeRadius ∧
      (updateBody st2 tr (some (some ptr)) dt rng).1.fleeCooldown =
        st2.fleeCooldownDuration ∧
      0 < (updateBody st2 tr (some (some ptr)) dt rng).1.fleeCooldown) := by
  constructor
  · intro hnf hdist hcool
    obtain ⟨stF, hfc, hFf, hFs⟩ :=
      fleeCheck_entry (cooldownStep st2 dt) tr ptr rng (by simp [hP])
        (by simp [hnf]) (by simpa using hdist) hcool
    have hnear : ¬ playerDistance2D tr ptr > stF.safeRadius := by
      rw [hFs]
      simp only [cooldownStep_safeRadius]
      intro hgt
      have := lt_trans (lt_of_lt_of_le hdist hrs) hgt
      exact absurd this (lt_irrefl _)
    obtain ⟨hret, hleft⟩ :=
      fleeMoveStep_fleeing_near stF tr ptr dt rng hFf hnear
    simp only [updateBody, hL, Bool.false_eq_true, if_false,
      panicStep_of_not_panic st2 tr dt rng hP, hfc]
    rw [if_pos hret]
    exact hleft
  · intro hf hres
    simp only [updateBody, hL, Bool.false_eq_true, if_false,
      panicStep_of_not_panic st2 tr dt rng hP] at hres ⊢
    rcases fleeCheck_of_fleeing (cooldownStep st2 dt) tr ptr rng
        (by simp [hP]) (by simp [hf]) with hfc | ⟨hfc, hfar⟩
    · rw [hfc] at hres ⊢
      by_cases h2 : playerDistance2D tr ptr > (cooldownStep st2 dt).safeRadius
      · rw [fleeMoveStep_fleeing_far (cooldownStep st2 dt) tr ptr dt rng
          (by simp [hf]) h2] at hres ⊢
        refine ⟨by simpa using h2, by simp, by simp [hcd]⟩
      · obtain ⟨hret, hleft⟩ := fleeMoveStep_fleeing_near (cooldownStep st2 dt)
          tr ptr dt rng (by simp [hf]) h2
        rw [if_pos hret] at hres
        simp [hleft] at hres
    · rw [hfc] at hres ⊢
      rw [fleeMoveStep_of_not_fleeing _ _ _ _ _ (by simp)] at hres ⊢
      refine ⟨by simpa using hfar, by simp, by simp [hcd]⟩

end SheepController

set_option maxRecDepth 100000

/-- C1 (corrected): for an agent starting a tick with X and Z inside the
map bounds rectangle, the behaviour update (`SheepController.update`)
keeps every transform it returns inside the rectangle; the collision pass
does not share this guarantee (see `c1_counterexample`: its push-out
corrections are unclamped). -/
theorem c1_theorem (st : SheepState) (tr : Transform)
    (player : Option (Option Transform)) (dt : ℚ) (rng : List ℚ)
    (hbx : st.mapBounds.min.x ≤ st.mapBounds.max.x)
    (hbz : st.mapBounds.min.z ≤ st.mapBounds.max.z)
    (hin : inBoundsXZ st.mapBounds tr.translation) :
    ∀ tr2, (SheepController.update st (some tr) player dt rng).2.1 = some tr2 →
      inBoundsXZ st.mapBounds tr2.translation :=
  SheepController.update_translation_inB st tr player dt rng hbx hbz hin

theorem c1_witness : inBoundsXZ baseSheep.mapBounds c1wOut.translation :=
  c1_theorem baseSheep c1wTr none (1/20) [1/2] (by with_unfolding_all decide) (by with_unfolding_all decide)
    (by with_unfolding_all decide) c1wOut (by with_unfolding_all decide)

/-- C1 counterexample: a paused in-bounds sheep at (33, 0, 0), overlapped
by a static box, is pushed by the collision pass to x = 67/2, outside the
map bounds rectangle (whose max x is 33). -/
theorem c1_counterexample :
    (0 : ℚ) < 1/20 ∧ ((1 : ℚ)/20 ≤ 1/10) ∧
    inBoundsXZ c1St.mapBounds c1Tr.translation ∧
    ((c1Pass.scene.get? 0).bind (fun e => e.transform)).map
      (fun t => t.translation.x) = some (67/2) ∧
    ¬ inBoundsXZ c1St.mapBounds ⟨67/2, 0, 0⟩ := by with_unfolding_all decide

/-- C2 (confirmed): when the collision pass finds a sheep overlapping a
seno (2D X–Z world-AABB overlap plus the near-ground height check), it
marks the sheep captured, stores the seno bounds, clears its launched,
panic and fleeing flags and its launch velocity, raises the capture
notification for a newly captured sheep, and applies no positional
correction for that sheep–seno pair. -/
theorem c2_theorem (ps : Physics.PhysState) (i j : ℕ) (e o : Entity)
    (stc : SheepState) (L I : Bool) (mn mx : Vec3)
    (hi : ps.scene.get? i = some e) (hj : ps.scene.get? j = some o)
    (hij : i ≠ j)
    (hsheep : e.sheep = some stc)
    (hoA : o.aabb = some ⟨some mn, some mx⟩)
    (hoCtrl : o.sheep = none)
    (hoStatic : o.isStatic = true)
    (hoSeno : o.isSeno = true)
    (hx : (Physics.getTransformedAABB e).min.x ≤
            (Physics.getTransformedAABB o).max.x ∧
          (Physics.getTransformedAABB e).max.x ≥
            (Physics.getTransformedAABB o).min.x)
    (hz : (Physics.getTransformedAABB e).min.z ≤
            (Physics.getTransformedAABB o).max.z ∧
          (Physics.getTransformedAABB e).max.z ≥
            (Physics.getTransformedAABB o).min.z)
    (hy : (Physics.getTransformedAABB e).min.y ≤
            (Physics.getTransformedAABB o).max.y + 1) :
    Physics.physPair ps i j L I =
      { ps with
        scene := ps.scene.set i { e with sheep := some { stc with
          isOnSeno := true,
          senoBounds := some ⟨⟨(Physics.getTransformedAABB o).min.x,
                               (Physics.getTransformedAABB o).min.z⟩,
                              ⟨(Physics.getTransformedAABB o).max.x,
                               (Physics.getTransformedAABB o).max.z⟩⟩,
          isLaunched := false, isPanic := false, isFleeing := false,
          launchVelocity := ⟨0, 0, 0⟩ } },
        events := ps.events ++ Physics.captureEvents stc.isOnSeno i } :=
  Physics.physPair_capture_eq ps i j e o stc L I mn mx hi hj hij hsheep hoA
    hoCtrl hoStatic hoSeno hx hz hy

theorem c2_witness :
    Physics.physPair c2wPs 0 1 false false =
      { c2wPs with
        scene := c2wPs.scene.set 0 c2wEnt,
        events := c2wPs.events ++ Physics.captureEvents baseSheep.isOnSeno 0 } :=
  c2_theorem c2wPs 0 1 c3Sheep0 c3Seno baseSheep false false ⟨-2, -1, -2⟩
    ⟨2, 1, 2⟩ rfl rfl (by decide) rfl rfl rfl rfl rfl
    (by with_unfolding_all decide) (by with_unfolding_all decide)
    (by with_unfolding_all decide)

/-- C3 (corrected): the capture notification is keyed on the persistent
captured flag, not on zone entry/exit: a captured agent's pairs never add
events, and the notification fires for an overlapping agent exactly when
its flag is not yet set — once per session, not once per continuous stay
(see `c3_counterexample` for a re-entry that raises nothing). -/
theorem c3_theorem (ps : Physics.PhysState) (i : ℕ) (e : Entity)
    (stc : SheepState) (hi : ps.scene.get? i = some e)
    (hsheep : e.sheep = some stc) :
    (stc.isOnSeno = true → ∀ j L I,
       (Physics.physPair ps i j L I).events = ps.events) ∧
    (stc.isOnSeno = false → ∀ j o L I (mn mx : Vec3),
       ps.scene.get? j = some o → i ≠ j → o.sheep = none →
       o.aabb = some ⟨some mn, some mx⟩ → o.isStatic = true →
       o.isSeno = true →
       ((Physics.getTransformedAABB e).min.x ≤
           (Physics.getTransformedAABB o).max.x ∧
        (Physics.getTransformedAABB e).max.x ≥
           (Physics.getTransformedAABB o).min.x) →
       ((Physics.getTransformedAABB e).min.z ≤
           (Physics.getTransformedAABB o).max.z ∧
        (Physics.getTransformedAABB e).max.z ≥
           (Physics.getTransformedAABB o).min.z) →
       ((Physics.getTransformedAABB e).min.y ≤
           (Physics.getTransformedAABB o).max.y + 1) →
       (Physics.physPair ps i j L I).events = ps.events ++ [i]) := by
  constructor
  · intro hon j L I
    exact Physics.physPair_events_of_cap ps i j L I e stc hi hsheep hon
  · intro hoff j o L I mn mx hj hij hoc hoA hos hsen hx hz hy
    rw [Physics.physPair_capture_eq ps i j e o stc L I mn mx hi hj hij hsheep
      hoA hoc hos hsen hx hz hy]
    simp [Physics.captureEvents, hoff]

theorem c3_witness :
    (Physics.physPair c10wPs 1 0 false false).events = c10wPs.events ∧
    (Physics.physPair c2wPs 0 1 false false).events = c2wPs.events ++ [0] :=
  ⟨(c3_theorem c10wPs 1 c10Cap c10CapSt rfl rfl).1 rfl 0 false false,
   (c3_theorem c2wPs 0 c3Sheep0 baseSheep rfl rfl).2 rfl 1 c3Seno false false
     ⟨-2, -1, -2⟩ ⟨2, 1, 2⟩ rfl (by with_unfolding_all decide) rfl rfl rfl rfl (by with_unfolding_all decide)
     (by with_unfolding_all decide) (by with_unfolding_all decide)⟩

/-- C3 counterexample: the first pass over a sheep standing in the seno
raises the notification ([0]); after it wanders out (pass 2, no event)
and re-enters with full 2D overlap and the height check satisfied, the
third pass raises nothing — not once per continuous stay. -/
theorem c3_counterexample :
    c3Pass1.events = [0] ∧ c3Pass2.events = [] ∧ c3Pass3.events = [] ∧
    ((Physics.getTransformedAABB c3S3).min.x ≤
        (Physics.getTransformedAABB c3Seno).max.x ∧
     (Physics.getTransformedAABB c3S3).max.x ≥
        (Physics.getTransformedAABB c3Seno).min.x) ∧
    ((Physics.getTransformedAABB c3S3).min.z ≤
        (Physics.getTransformedAABB c3Seno).max.z ∧
     (Physics.getTransformedAABB c3S3).max.z ≥
        (Physics.getTransformedAABB c3Seno).min.z) ∧
    (Physics.getTransformedAABB c3S3).min.y ≤
      (Physics.getTransformedAABB c3Seno).max.y + 1 := by with_unfolding_all decide

/-- C4 (corrected): the collision pass skips a pair when the *other* side
is invulnerable, and skips dynamic–dynamic pairs whose mover is
invulnerable; but an invulnerable mover is still resolved against static
obstacles (see `c4_counterexample`), so it does not pass through
everything. -/
theorem c4_theorem (ps : Physics.PhysState) (i j : ℕ) (o : Entity)
    (hj : ps.scene.get? j = some o) :
    (∀ L I, (o.sheep.map (fun s => s.launchInvulnerable)).getD false = true →
       Physics.physPair ps i j L I = ps) ∧
    (∀ L, o.isStatic = false → Physics.physPair ps i j L true = ps) := by
  constructor
  · intro L I hinv
    rcases hgi : ps.scene.get? i with _ | e
    · simp only [Physics.physPair, hgi]
    · simp only [Physics.physPair, hgi, hj]
      by_cases hij : i = j
      · rw [if_pos hij]
      · rw [if_neg hij]
        split_ifs <;> first | rfl | simp_all
  · intro L hstat
    rcases hgi : ps.scene.get? i with _ | e
    · simp only [Physics.physPair, hgi]
    · simp only [Physics.physPair, hgi, hj]
      split_ifs <;> first | rfl | simp_all

theorem c4_witness :
    Physics.physPair c4wPs 0 1 false false = c4wPs ∧
    Physics.physPair c4wPs 0 1 false true = c4wPs :=
  ⟨(c4_theorem c4wPs 0 1 c4Sheep rfl).1 false false (by with_unfolding_all decide),
   (c4_theorem c4wPs 0 1 c4Sheep rfl).2 false (by with_unfolding_all decide)⟩

/-- C4 counterexample: a sheep inside its post-launch invulnerability
window, overlapping the static box `c1Box` at x = 33, is pushed to
x = 67/2 by the collision pass — its transform is changed by a pair it
takes part in. -/
theorem c4_counterexample :
    (c4Sheep.sheep.map (fun s => s.launchInvulnerable)) = some true ∧
    (c4Sheep.transform.map (fun t => t.translation.x)) = some 33 ∧
    ((c4Pass.scene.get? 0).bind (fun e => e.transform)).map
      (fun t => t.translation.x) = some (67/2) ∧
    ((67 : ℚ)/2 ≠ 33) := by with_unfolding_all decide

/-- C5 (code_bug): launch invulnerability is only cleared inside the
still-launched branch, so a launch cancelled early (here by the boundary
hit on the first airborne update) leaves `launchInvulnerable` stuck true:
three further updates later the accumulated time 7/20 s exceeds 3/10 s
and the flag is still set. -/
theorem c5_theorem :
    c5S0.launchInvulnerable = true ∧
    c5S0.isLaunched = true ∧
    c5U1.1.isLaunched = false ∧
    c5U1.1.launchInvulnerable = true ∧
    ((1 : ℚ)/20 + 1/10 + 1/10 + 1/10 > 3/10) ∧
    c5U4.1.isLaunched = false ∧
    c5U4.1.launchInvulnerable = true := by with_unfolding_all decide

/-- C6 (corrected): with a player present, flee entry fires on an update
where the 2D distance is below `fleeRadius` and the ticked cooldown has
expired; an exit during wander/flee processing happens only beyond
`safeRadius` and arms the positive cooldown — but the panic-landing path
clears the flag without either condition (see `c6_counterexample`), so
the hypotheses exclude launched and panicking states. -/
theorem c6_theorem (st : SheepState) (tr ptr : Transform) (dt : ℚ)
    (rng : List ℚ)
    (hL : st.isLaunched = false) (hP : st.isPanic = false)
    (hrs : st.fleeRadius ≤ st.safeRadius)
    (hcd : 0 < st.fleeCooldownDuration)
    (hdt0 : 0 < dt) (hdt1 : dt ≤ 1/10) :
    (st.isFleeing = false →
      playerDistance2D tr ptr < st.fleeRadius →
      (SheepController.cooldownStep st dt).fleeCooldown ≤ 0 →
      (SheepController.update st (some tr) (some (some ptr)) dt
        rng).1.isFleeing = true) ∧
    (st.isFleeing = true →
      (SheepController.update st (some tr) (some (some ptr)) dt
        rng).1.isFleeing = false →
      playerDistance2D tr ptr > st.safeRadius ∧
      (SheepController.update st (some tr) (some (some ptr)) dt
        rng).1.fleeCooldown = st.fleeCooldownDuration ∧
      0 < (SheepController.update st (some tr) (some (some ptr)) dt
        rng).1.fleeCooldown) := by
  have hguard : ¬(dt ≤ 0 ∨ dt > 1/10) := by
    rintro (h | h) <;> linarith
  rw [SheepController.update_eq_body st tr (some (some ptr)) dt rng hguard]
  by_cases hb : st.baseY.isNone = true
  case neg =>
    rw [if_neg hb]
    exact SheepController.updateBody_flee st tr ptr dt rng hL hP hrs hcd
  case pos =>
    rw [if_pos hb]
    have h := SheepController.updateBody_flee
      { st with baseY := some tr.translation.y } tr ptr dt rng
      (by simpa using hL) (by simpa using hP) (by simpa using hrs)
      (by simpa using hcd)
    have hcool_eq := SheepController.cooldownStep_fleeCooldown_eq
      { st with baseY := some tr.translation.y } st dt (by simp)
    rw [hcool_eq] at h
    refine ⟨fun a b c => h.1 (by simpa using a) (by simpa using b) c,
      fun a b => ?_⟩
    obtain ⟨x, y, z⟩ := h.2 (by simpa using a) b
    exact ⟨by simpa using x, by simpa using y, z⟩

theorem c6_witness :
    (SheepController.update baseSheep (some c8Tr) (some (some c6wPtr)) (1/20)
      [1/2]).1.isFleeing = true :=
  (c6_theorem baseSheep c8Tr c6wPtr (1/20) [1/2] rfl rfl (by with_unfolding_all decide)
      (by with_unfolding_all decide) (by with_unfolding_all decide) (by with_unfolding_all decide)).1 rfl (by with_unfolding_all decide) (by with_unfolding_all decide)

/-- C6 counterexample: a sheep that was fleeing when launched lands in
panic: the landing clears `isFleeing` on an update where the player is at
2D distance 1 (inside `fleeRadius`, far below `safeRadius`) and arms no
cooldown. -/
theorem c6_counterexample :
    c6St.isFleeing = true ∧
    c6U.1.isFleeing = false ∧
    playerDistance2D c6Tr c6Ptr < baseSheep.safeRadius ∧
    c6U.1.fleeCooldown = 0 := by with_unfolding_all decide

/-- C7 (confirmed): a `dt` outside (0, 1/10] makes the whole per-agent
update a no-op: the state, the transform and the random stream come back
exactly unchanged. -/
theorem c7_theorem (st : SheepState) (tr? : Option Transform)
    (player : Option (Option Transform)) (dt : ℚ) (rng : List ℚ)
    (h : dt ≤ 0 ∨ dt > 1/10) :
    SheepController.update st tr? player dt rng = (st, tr?, rng) := by
  simp only [SheepController.update, if_pos h]

theorem c7_witness :
    SheepController.update baseSheep (some c7wTr) none (1/5) [] =
      (baseSheep, some c7wTr, []) :=
  c7_theorem baseSheep (some c7wTr) none (1/5) [] (Or.inr (by norm_num))

/-- C8 (corrected): only the flee state replaces a degenerate (length
≤ 1/100) direction with a freshly sampled unit direction; the wander
state instead skips that tick's movement entirely, leaving the zero
direction in place and the random stream unconsumed (see
`c8_counterexample`). -/
theorem c8_theorem (fd : Vec2) (rng : List ℚ) (st : SheepState)
    (tr : Transform) (dt : ℚ) (rng2 : List ℚ)
    (hdeg : ¬ sqrtQ (fd.x * fd.x + fd.z * fd.z) > 1/100)
    (hzero : st.currentDirection = ⟨0, 0⟩)
    (hpause : st.isPaused = false)
    (hsmall : ¬ st.timeSinceDirectionChange + dt ≥ st.directionChangeInterval) :
    (SheepController.fleeDirNormalize fd rng =
        (⟨sinQ (rng.headD 0 * piQ * 2), cosQ (rng.headD 0 * piQ * 2)⟩,
         rng.tail) ∧
      sinQ (rng.headD 0 * piQ * 2) ^ 2 + cosQ (rng.headD 0 * piQ * 2) ^ 2 =
        1) ∧
    ((SheepController.wanderStep st tr dt rng2).1.currentDirection = ⟨0, 0⟩ ∧
      (SheepController.wanderStep st tr dt rng2).2.1.translation.x =
        tr.translation.x ∧
      (SheepController.wanderStep st tr dt rng2).2.1.translation.z =
        tr.translation.z ∧
      (SheepController.wanderStep st tr dt rng2).2.2 = rng2) := by
  constructor
  · constructor
    · simp only [SheepController.fleeDirNormalize, draw]
      rw [if_neg hdeg]
    · exact sinQ_sq_add_cosQ_sq _
  · have hw := SheepController.wanderDirTick_of_small st tr dt rng2 hsmall
    have hlen : sqrtQ ((0 : ℚ) * 0 + 0 * 0) = 0 := by norm_num [sqrtQ]
    simp only [SheepController.wanderStep, hpause, Bool.false_eq_true,
      if_false, hw, hzero]
    rw [if_neg (by rw [hlen]; exact lt_irrefl 0)]
    exact ⟨by simp [hzero], by simp, by simp, rfl⟩

theorem c8_witness :
    (SheepController.fleeDirNormalize ⟨0, 0⟩ [(1 : ℚ)/2] =
        (⟨sinQ ((1 : ℚ)/2 * piQ * 2), cosQ ((1 : ℚ)/2 * piQ * 2)⟩, []) ∧
      sinQ ((1 : ℚ)/2 * piQ * 2) ^ 2 + cosQ ((1 : ℚ)/2 * piQ * 2) ^ 2 = 1) ∧
    ((SheepController.wanderStep c8St c8Tr (1/20) [7]).1.currentDirection =
        ⟨0, 0⟩ ∧
      (SheepController.wanderStep c8St c8Tr (1/20) [7]).2.1.translation.x =
        c8Tr.translation.x ∧
      (SheepController.wanderStep c8St c8Tr (1/20) [7]).2.1.translation.z =
        c8Tr.translation.z ∧
      (SheepController.wanderStep c8St c8Tr (1/20) [7]).2.2 = [7]) :=
  c8_theorem ⟨0, 0⟩ [(1 : ℚ)/2] c8St c8Tr (1/20) [7] (by with_unfolding_all decide) rfl rfl
    (by with_unfolding_all decide)

/-- C8 counterexample: a wandering sheep whose stored direction is the
zero vector keeps it across a full update — no fresh random direction is
sampled (the stream is returned untouched) and the agent's X and Z do not
move. -/
theorem c8_counterexample :
    c8St.currentDirection = ⟨0, 0⟩ ∧
    c8U.1.currentDirection = ⟨0, 0⟩ ∧
    c8U.2.2 = [1/2] ∧
    (c8U.2.1.map (fun t => t.translation.x)) = some 0 ∧
    (c8U.2.1.map (fun t => t.translation.z)) = some 0 := by with_unfolding_all decide

/-- C9 (confirmed): `resolveCollision a b` leaves `b` untouched and
changes at most `a`'s transform, restoring `a`'s Y translation and
leaving its rotation, scale and behaviour state exactly as they were —
whether or not the boxes overlap. -/
theorem c9_theorem (a b : Entity) :
    (Physics.resolveCollision a b).2.2 = b ∧
    (∃ t2, (Physics.resolveCollision a b).2.1 = { a with transform := t2 }) ∧
    (Physics.resolveCollision a b).2.1.transform.map
      (fun t => t.translation.y) = a.transform.map (fun t => t.translation.y) ∧
    (Physics.resolveCollision a b).2.1.transform.map (fun t => t.rotation) =
      a.transform.map (fun t => t.rotation) ∧
    (Physics.resolveCollision a b).2.1.transform.map (fun t => t.scale) =
      a.transform.map (fun t => t.scale) ∧
    (Physics.resolveCollision a b).2.1.sheep = a.sheep := by
  rcases htr : a.transform with _ | tr
  · simp only [Physics.resolveCollision, htr]
    split
    · refine ⟨rfl, ⟨a.transform, rfl⟩, ?_, ?_, ?_, ?_⟩ <;> simp [htr]
    · refine ⟨rfl, ⟨a.transform, rfl⟩, ?_, ?_, ?_, ?_⟩ <;> simp [htr]
  · simp only [Physics.resolveCollision, htr]
    split
    · refine ⟨rfl, ⟨_, rfl⟩, ?_, ?_, ?_, rfl⟩ <;> simp [htr]
    · refine ⟨rfl, ⟨a.transform, rfl⟩, ?_, ?_, ?_, ?_⟩ <;> simp [htr]

/-- C10 (confirmed): once set, the captured flag persists: the behaviour
update and the launch command preserve `isOnSeno`, a full collision pass
preserves the captured status of any scene index, and a dynamic pair with
exactly one captured side is skipped entirely. -/
theorem c10_theorem (st : SheepState) (tr? : Option Transform)
    (player : Option (Option Transform)) (dtq : ℚ) (rng : List ℚ)
    (d : Vec3) (sp : ℚ) (t dt2 : ℚ) (ps : Physics.PhysState) (k : ℕ)
    (hc : capturedAt ps.scene k)
    (ps2 : Physics.PhysState) (i j : ℕ) (e2 o2 : Entity) (se so : SheepState)
    (hi2 : ps2.scene.get? i = some e2) (hj2 : ps2.scene.get? j = some o2)
    (he2 : e2.sheep = some se) (ho2 : o2.sheep = some so)
    (hfree : se.isOnSeno = false) (hcap : so.isOnSeno = true)
    (hstat : o2.isStatic = false) :
    (SheepController.update st tr? player dtq rng).1.isOnSeno = st.isOnSeno ∧
    (SheepController.launch st d sp).isOnSeno = st.isOnSeno ∧
    capturedAt (Physics.update t dt2 ps).scene k ∧
    (∀ L I, Physics.physPair ps2 i j L I = ps2) := by
  refine ⟨SheepController.update_isOnSeno st tr? player dtq rng,
    SheepController.launch_isOnSeno st d sp,
    Physics.update_capturedAt t dt2 ps k hc, ?_⟩
  intro L I
  simp only [Physics.physPair, hi2, hj2]
  split_ifs <;> first | rfl | simp_all

theorem c10_witness :
    (SheepController.update baseSheep (some c1wTr) none (1/20)
      []).1.isOnSeno = baseSheep.isOnSeno ∧
    (SheepController.launch baseSheep ⟨1, 0, 0⟩ 5).isOnSeno =
      baseSheep.isOnSeno ∧
    capturedAt (Physics.update 0 (1/20) c10wPs).scene 1 ∧
    (∀ L I, Physics.physPair c10wPs 0 1 L I = c10wPs) :=
  c10_theorem baseSheep (some c1wTr) none (1/20) [] ⟨1, 0, 0⟩ 5 0 (1/20)
    c10wPs 1 ⟨c10Cap, rfl, c10CapSt, rfl, rfl⟩ c10wPs 0 1 c10Free c10Cap
    baseSheep c10CapSt rfl rfl rfl rfl rfl rfl rfl

end SheepGame
